import Mathlib

/-
Verification development for lazygrid's model selection module
(src/lazygrid/model_selection.py).  The Python code is shallowly embedded:
learners become an inductive datatype covering the three capability cases the
source dispatches on (keras Sequential/Model, sklearn Pipeline, plain
estimators with fit/predict), the persistent model store becomes an
association list threaded through the computation, and external library
calls (sklearn predict/transform/StratifiedKFold, scipy's mannwhitneyu,
the t confidence interval) become fields of an explicit `Oracle` parameter,
since the repository treats them as collaborators.
-/

/-- Python runtime values relevant to the module: numpy arrays (with an
abstract payload standing for the array identity/contents), None, and any
other object. -/
inductive PyData where
  | ndarray (payload : Nat)
  | pynone
  | otherObj (payload : Nat)
deriving DecidableEq, Repr

def PyData.isNdarray : PyData → Bool
  | .ndarray _ => true
  | _ => false

def PyData.isNone : PyData → Bool
  | .pynone => true
  | _ => false

/-- One sklearn pipeline step: whether its parameter dict has a
random_state entry, the current value of that entry, whether the object has
transform / predict attributes, and its behavioural fitted state (whether a
transform/predict probe would raise NotFittedError). -/
structure Step where
  hasRandomState : Bool
  randomState : Int
  hasTransform : Bool
  hasPredict : Bool
  fitted : Bool
deriving DecidableEq, Repr

/-- The three model shapes `_set_random_seed` / `_fit` dispatch on:
keras Sequential/Model (weight initialisation summarised by the seed last
fed to reset_weights, per neural_models.py being absent from src the weight
reset is modelled from the spec as reseeding the weight-initialising RNG),
sklearn Pipeline, and plain objects characterised by which attributes they
have (fit, predict, random_state). -/
inductive LearnerKind where
  | keras (initSeed : Int) (fitted : Bool)
  | pipeline (steps : List Step)
  | plain (hasFit hasPredict hasRandomState : Bool) (randomState : Int) (fitted : Bool)
deriving DecidableEq, Repr

/-- A Python model object: its structural/behavioural kind plus the two
attributes the module attaches dynamically (`is_fitted`, `signature`).
`none` means the attribute has not been set on the object. -/
structure Learner where
  kind : LearnerKind
  isFittedAttr : Option Bool
  signature : Option Nat
deriving DecidableEq, Repr

/-- Embedding of `_is_fitted` for a pipeline step: the probe calls transform
if present, else predict if present, else returns False; the call raises
NotFittedError exactly when the step is not behaviourally fitted. -/
def isFittedStep (st : Step) : Bool :=
  (st.hasTransform || st.hasPredict) && st.fitted

/-- Action of `_set_random_seed`'s pipeline branch on one parameter: every
get_params key containing "random_state" is set to the fold index when
random_model is true, else to the seed. -/
def stepSetSeed (randomModel : Bool) (splitIndex : Nat) (seed : Int) (st : Step) : Step :=
  if st.hasRandomState then
    if randomModel then { st with randomState := (splitIndex : Int) }
    else { st with randomState := seed }
  else st

/-- Embedding of `_set_random_seed` (model_selection.py lines 97-155).
Branch order follows the source: keras Sequential/Model first (reset the
weight-initialising RNG from split_index or seed — the reset_weights
helper lives in neural_models.py, which is not under src, so its effect is
modelled from the spec as reseeding the weight-initialisation RNG stream),
then Pipeline (set every random_state parameter), then objects with both
fit and predict and a random_state attribute; anything else is returned
unchanged. -/
def setRandomSeed (learner : Learner) (randomModel : Bool) (splitIndex : Nat) (seed : Int) : Learner :=
  match learner.kind with
  | .keras _ f =>
      if randomModel then { learner with kind := .keras (splitIndex : Int) f }
      else { learner with kind := .keras seed f }
  | .pipeline steps =>
      { learner with kind := .pipeline (steps.map (stepSetSeed randomModel splitIndex seed)) }
  | .plain hf hp hrs _rs f =>
      if hf && hp then
        if hrs then
          if randomModel then { learner with kind := .plain hf hp hrs (splitIndex : Int) f }
          else { learner with kind := .plain hf hp hrs seed f }
        else learner
      else learner

/-- A learner is randomization-capable when `_set_random_seed` has a seed
slot to write: keras models always, pipelines with at least one
random_state parameter, plain models with fit, predict and random_state. -/
def Learner.randomizable : Learner → Bool
  | ⟨.keras _ _, _, _⟩ => true
  | ⟨.pipeline steps, _, _⟩ => steps.any (·.hasRandomState)
  | ⟨.plain hf hp hrs _ _, _, _⟩ => hf && hp && hrs

/-- All random-state values carried by a learner, in order: the keras
weight-initialisation seed, each pipeline random_state parameter, or the
plain estimator's random_state attribute. -/
def Learner.randStates : Learner → List Int
  | ⟨.keras w _, _, _⟩ => [w]
  | ⟨.pipeline steps, _, _⟩ =>
      steps.filterMap (fun st => if st.hasRandomState then some st.randomState else none)
  | ⟨.plain _ _ hrs rs0 _, _, _⟩ => if hrs then [rs0] else []

def Step.eraseFit (st : Step) : Step := { st with fitted := false }

def LearnerKind.eraseFit : LearnerKind → LearnerKind
  | .keras w _ => .keras w false
  | .pipeline steps => .pipeline (steps.map Step.eraseFit)
  | .plain hf hp hrs rs _ => .plain hf hp hrs rs false

/-- Structural identity of a model as used for fingerprinting: the
configuration (including any seeded random_state values) with the
behavioural fitted state and the runtime attributes normalised away, so
that a fresh copy and its fitted counterpart share an identity. -/
def Learner.structuralId (l : Learner) : Learner :=
  ⟨l.kind.eraseFit, none, none⟩

/-- Cache key as determined by `_get_learner`'s call to `load_model`
(line 180): the seeded learner plus split_index, dataset_id, dataset_name
and fit_params; the database is selected separately by db_name.  Note that
`random_model` itself is not an argument of the lookup. -/
structure CacheKey where
  modelId : Learner
  splitIndex : Nat
  datasetId : Int
  datasetName : String
  fitParams : List (String × Int)
deriving DecidableEq, Repr

/-- The key under which fold `splitIndex`'s fit is looked up and stored:
_get_learner deep-copies the model, seeds it, and hands it to the store. -/
def fitFingerprint (model : Learner) (randomModel : Bool) (splitIndex : Nat) (seed : Int)
    (datasetId : Int) (datasetName : String) (fitParams : List (String × Int)) : CacheKey :=
  ⟨(setRandomSeed model randomModel splitIndex seed).structuralId,
    splitIndex, datasetId, datasetName, fitParams⟩

def lookupA {α β : Type} [DecidableEq α] (a : α) : List (α × β) → Option β
  | [] => none
  | (k, v) :: rest => if k = a then some v else lookupA a rest

def eraseA {α β : Type} [DecidableEq α] (a : α) : List (α × β) → List (α × β)
  | [] => []
  | (k, v) :: rest => if k = a then eraseA a rest else (k, v) :: eraseA a rest

/-- Index of a key inside one database, used as the persistence handle. -/
def keyIndex (key : CacheKey) : List (CacheKey × Learner) → Option Nat
  | [] => none
  | (k, _) :: rest =>
      if k = key then some 0 else (keyIndex key rest).map (· + 1)

abbrev Db := List (CacheKey × Learner)

abbrev Store := List (String × Db)

/-- Modelled from the spec: `load_model` of database.py (not under src).
Per section 4.2 the store maps a fingerprint to a previously fitted
artifact or signals a miss; the fingerprint fields are limited to the
arguments `_get_learner` actually passes. -/
def loadModel (store : Store) (dbName : String) (key : CacheKey) : Option Learner :=
  lookupA key ((lookupA dbName store).getD [])

def storeSet (store : Store) (dbName : String) (db : Db) : Store :=
  (dbName, db) :: eraseA dbName store

/-- Modelled from the spec: `save_model` of database.py (not under src).
Stores the artifact under its fingerprint and returns the persistence
signature; saving an already-present fingerprint is idempotent. -/
def saveModel (store : Store) (dbName : String) (key : CacheKey) (artifact : Learner) :
    Store × Nat :=
  let db := (lookupA dbName store).getD []
  match keyIndex key db with
  | some i => (store, i)
  | none => (storeSet store dbName (db ++ [(key, artifact)]), db.length)

/-- Modelled from the spec: `drop_db` of database.py (not under src);
removes the named database and everything cached in it. -/
def dropDb (store : Store) (dbName : String) : Store :=
  eraseA dbName store

/-- Embedding of `_get_learner` (lines 158-191): deep-copy the caller's
model, seed the copy, consult the store; on a hit mark the artifact fitted,
on a miss rebuild a seeded copy marked unfitted.  The returned Bool/key are
the hit flag and the fingerprint used (exposed for the event trace). -/
def getLearner (model : Learner) (dbName : String) (datasetId : Int) (datasetName : String)
    (randomModel : Bool) (splitIndex : Nat) (seed : Int) (fitParams : List (String × Int))
    (store : Store) : Learner × Bool × CacheKey :=
  let key := fitFingerprint model randomModel splitIndex seed datasetId datasetName fitParams
  match loadModel store dbName key with
  | some artifact => ({ artifact with isFittedAttr := some true }, true, key)
  | none =>
      let learner := setRandomSeed model randomModel splitIndex seed
      ({ learner with isFittedAttr := some false }, false, key)

/-- A pluggable two-sample statistical test as the module receives it: a
named callable taking the use_continuity flag, the alternative, and two
numeric score collections, returning a p-value. -/
structure StatTest where
  name : String
  run : Bool → String → List ℚ → List ℚ → ℚ

/-- External collaborators (sklearn, scipy, statsmodels, the concrete model
implementations): data splitting and fancy indexing, model predict,
pipeline step transform, the built-in scoring functions, scipy's
mannwhitneyu, and the t-based confidence interval for a mean
(confidence_interval_mean_t lives in statistics.py, not under src, and is
kept opaque since no claim depends on its values). -/
structure Oracle where
  splitPair : Int → Nat → PyData → PyData → Nat → Nat × Nat
  index : PyData → Nat → PyData
  predict : Learner → PyData → PyData
  transform : Step → PyData → PyData
  accuracyScore : PyData → PyData → ℚ
  f1WeightedScore : PyData → PyData → ℚ
  mannwhitneyu : StatTest
  ciMeanT : List ℚ → ℚ → ℚ × ℚ

/-- Python-level failures the module can raise. -/
inductive PyErr where
  | assertionError
  | valueError
  | attributeError
  | indexError
  | unboundLocal (name : String)
deriving DecidableEq, Repr

/-- Observable side effects of a run, for stating when fits and cache
accesses happen. -/
inductive Event where
  | dropEvt (dbName : String)
  | lookupEvt (dbName : String) (key : CacheKey) (hit : Bool)
  | fitEvt
  | stepFitEvt (stepIdx : Nat)
  | storeEvt (dbName : String) (key : CacheKey)
deriving DecidableEq, Repr

def Event.isFit : Event → Bool
  | .fitEvt => true
  | .stepFitEvt _ => true
  | _ => false

def Event.isStore : Event → Bool
  | .storeEvt _ _ => true
  | _ => false

def Event.isDrop : Event → Bool
  | .dropEvt _ => true
  | _ => false

/-- Embedding of `_fit`'s pipeline loop (lines 207-217): walk the steps,
fit each step that is not behaviourally fitted, and propagate transformed
features forward through steps that have a transform. -/
def fitSteps (O : Oracle) (x : PyData) (k : Nat) : List Step → List Step × List Event × PyData
  | [] => ([], [], x)
  | st :: rest =>
      let needsFit := !(isFittedStep st)
      let st2 := if needsFit then { st with fitted := true } else st
      let evs : List Event := if needsFit then [Event.stepFitEvt k] else []
      let x2 := if st2.hasTransform then O.transform st2 x else x
      let r := fitSteps O x2 (k + 1) rest
      (st2 :: r.1, evs ++ r.2.1, r.2.2)

/-- Embedding of `_fit` (lines 194-225): Pipeline steps are fitted
step-by-step guarded by the behavioural probe; other models with fit and
predict are fitted exactly when the `is_fitted` attribute is false (reading
a never-set attribute raises AttributeError); anything else is returned
unchanged.  fit_params only parameterises the external fit call, whose
effect is recorded in the fitted state. -/
def fitL (O : Oracle) (learner : Learner) (xTrain : PyData)
    (_fitParams : List (String × Int)) : List Event × Except PyErr Learner :=
  match learner.kind with
  | .pipeline steps =>
      let r := fitSteps O xTrain 0 steps
      (r.2.1, .ok { learner with kind := .pipeline r.1 })
  | .keras w _f =>
      match learner.isFittedAttr with
      | none => ([], .error .attributeError)
      | some true => ([], .ok learner)
      | some false => ([Event.fitEvt], .ok { learner with kind := .keras w true })
  | .plain hf hp hrs rs0 _f =>
      if hf && hp then
        match learner.isFittedAttr with
        | none => ([], .error .attributeError)
        | some true => ([], .ok learner)
        | some false => ([Event.fitEvt], .ok { learner with kind := .plain hf hp hrs rs0 true })
      else ([], .ok learner)

/-- The scoring argument of cross_validation: a callable (with a display
name standing for its str()) or a string. -/
inductive Scoring where
  | callable (name : String) (f : PyData → PyData → ℚ)
  | str (s : String)

/-- Embedding of lines 301-306: bind score_fun for a callable or for the
strings "accuracy" / "f1"; any other value leaves score_fun unbound. -/
def resolveScoreFun (O : Oracle) : Scoring → Option (PyData → PyData → ℚ)
  | .callable _ f => some f
  | .str s =>
      if s = "accuracy" then some O.accuracyScore
      else if s = "f1" then some O.f1WeightedScore
      else none

def Scoring.reprName : Scoring → String
  | .callable n _ => n
  | .str s => s

/-- The per-call context of one cross_validation run, assembled before the
fold loop starts. -/
structure CVCtx where
  model : Learner
  x : PyData
  y : PyData
  xVal : PyData
  yVal : PyData
  randomData : Bool
  randomModel : Bool
  seed : Int
  nSplits : Nat
  dbName : String
  datasetId : Int
  datasetName : String
  scoreFun : Option (PyData → PyData → ℚ)
  fitParams : List (String × Int)

/-- Data used by fold `i` (lines 322-329): under random_data, the i-th
stratified split's train/validation index arrays applied to x and y;
otherwise the fixed x, y, x_val, y_val. -/
def foldData (O : Oracle) (ctx : CVCtx) (i : Nat) : PyData × PyData × PyData × PyData :=
  if ctx.randomData then
    let pr := O.splitPair ctx.seed ctx.nSplits ctx.x ctx.y i
    (O.index ctx.x pr.1, O.index ctx.y pr.1, O.index ctx.x pr.2, O.index ctx.y pr.2)
  else (ctx.x, ctx.y, ctx.xVal, ctx.yVal)

/-- Result of one successful fold: train and validation scores, the saved
learner snapshot appended to fitted_models, and the updated store. -/
structure FoldOut where
  trainScore : ℚ
  valScore : ℚ
  savedLearner : Learner
  db : Store
deriving Repr

/-- Body of one loop iteration of cross_validation (lines 318-355): resolve
the fold data, load or rebuild the learner via the cache, fit if needed,
predict on train and validation data, compute both scores (raising
UnboundLocalError here when score_fun was never bound), persist the learner
and record its signature.  The event list is emitted even when the body
raises, mirroring side effects that already happened. -/
def cvFoldBody (O : Oracle) (ctx : CVCtx) (db : Store) (i : Nat) :
    List Event × Except PyErr FoldOut :=
  let fd := foldData O ctx i
  let gl := getLearner ctx.model ctx.dbName ctx.datasetId ctx.datasetName
      ctx.randomModel i ctx.seed ctx.fitParams db
  let ev0 : List Event := [Event.lookupEvt ctx.dbName gl.2.2 gl.2.1]
  match fitL O gl.1 fd.1 ctx.fitParams with
  | (fitEvs, .error e) => (ev0 ++ fitEvs, .error e)
  | (fitEvs, .ok learner2) =>
      let yTrainPred := O.predict learner2 fd.1
      let yValPred := O.predict learner2 fd.2.2.1
      match ctx.scoreFun with
      | none => (ev0 ++ fitEvs, .error (.unboundLocal "score_fun"))
      | some f =>
          let scoreTrain := f fd.2.1 yTrainPred
          let scoreVal := f fd.2.2.2 yValPred
          let sv := saveModel db ctx.dbName gl.2.2 learner2
          let learner3 := { learner2 with signature := some sv.2 }
          (ev0 ++ fitEvs ++ [Event.storeEvt ctx.dbName gl.2.2],
            .ok ⟨scoreTrain, scoreVal, learner3, sv.1⟩)

/-- Accumulated state of the fold loop. -/
structure CVState where
  db : Store
  trainCv : List ℚ
  valCv : List ℚ
  fitted : List Learner
  trace : List (Nat × Event)
  err : Option PyErr

/-- One loop iteration: a pending exception skips the body (the loop has
already terminated); otherwise run the body and append its results, or
record the raised error together with the events that preceded it. -/
def cvFoldStep (O : Oracle) (ctx : CVCtx) (st : CVState) (i : Nat) : CVState :=
  if st.err.isSome then st
  else
    let br := cvFoldBody O ctx st.db i
    match br.2 with
    | .error e =>
        { st with err := some e, trace := st.trace ++ br.1.map (fun ev => (i, ev)) }
    | .ok fo =>
        { db := fo.db,
          trainCv := st.trainCv ++ [fo.trainScore],
          valCv := st.valCv ++ [fo.valScore],
          fitted := st.fitted ++ [fo.savedLearner],
          trace := st.trace ++ br.1.map (fun ev => (i, ev)),
          err := none }

def initCVState (db : Store) : CVState := ⟨db, [], [], [], [], none⟩

/-- State of the loop after folds 0..k-1, in source order. -/
def foldStates (O : Oracle) (ctx : CVCtx) (db : Store) (k : Nat) : CVState :=
  (List.range k).foldl (cvFoldStep O ctx) (initCVState db)

/-- The score dictionary built by cross_validation; train_blind and
test_blind are created and never filled. -/
structure CVScore where
  trainBlind : List ℚ
  testBlind : List ℚ
  trainCv : List ℚ
  valCv : List ℚ
deriving DecidableEq, Repr

/-- Full observable outcome of one cross_validation call: the returned
value or raised error, the store as left on disk, the event trace tagged by
fold index, and the caller's model object after the call (the function
works on deep copies, so it is returned as received). -/
structure CVRun where
  result : Except PyErr (CVScore × List Learner)
  db : Store
  trace : List (Nat × Event)
  callerModel : Learner

def mkCVCtx (O : Oracle) (model : Learner) (x y : PyData) (dbName : String)
    (datasetId : Int) (datasetName : String) (xVal yVal : PyData)
    (randomData randomModel : Bool) (seed : Int) (nSplits : Nat)
    (scoring : Scoring) (fitParams : List (String × Int)) : CVCtx :=
  ⟨model, x, y, xVal, yVal, randomData, randomModel, seed, nSplits,
    dbName, datasetId, datasetName, resolveScoreFun O scoring, fitParams⟩

/-- Embedding of `cross_validation` (lines 228-357).  The leading asserts
mirror lines 287-296 (the isinstance checks on bools and ints hold by
typing); StratifiedKFold's documented rejection of fewer than two splits is
raised where the splitter is built (line 310); then the fold loop runs. -/
def crossValidation (O : Oracle) (model : Learner) (x y : PyData) (dbName : String)
    (datasetId : Int) (datasetName : String) (xVal yVal : PyData)
    (randomData randomModel : Bool) (seed : Int) (nSplits : Nat)
    (scoring : Scoring) (fitParams : List (String × Int)) (db : Store) : CVRun :=
  if !(x.isNdarray && y.isNdarray) then ⟨.error .assertionError, db, [], model⟩
  else if !randomData && (xVal.isNone || yVal.isNone) then
    ⟨.error .assertionError, db, [], model⟩
  else if randomModel && !randomData && !(xVal.isNdarray && yVal.isNdarray) then
    ⟨.error .assertionError, db, [], model⟩
  else if randomData && decide (nSplits < 2) then ⟨.error .valueError, db, [], model⟩
  else
    let ctx := mkCVCtx O model x y dbName datasetId datasetName xVal yVal
        randomData randomModel seed nSplits scoring fitParams
    let fin := foldStates O ctx db nSplits
    match fin.err with
    | some e => ⟨.error e, fin.db, fin.trace, model⟩
    | none => ⟨.ok (⟨[], [], fin.trainCv, fin.valCv⟩, fin.fitted), fin.db, fin.trace, model⟩

/-- Arithmetic mean of a score collection (np.mean on a nonempty list). -/
def listMean (l : List ℚ) : ℚ := l.sum / (l.length : ℚ)

def argmaxAux : List ℚ → Nat → Nat → ℚ → Nat
  | [], _, bi, _ => bi
  | q :: rest, i, bi, bv =>
      if bv < q then argmaxAux rest (i + 1) i q else argmaxAux rest (i + 1) bi bv

/-- First index attaining the maximum of a list (0 for the empty list). -/
def argmaxFirst : List ℚ → Nat
  | [] => 0
  | q :: rest => argmaxAux rest 1 0 q

/-- Modelled from the spec: `find_best_solution` of statistics.py (not
under src), per section 4.4.  Step 1: the best index is the arg-max of mean
validation score, first index on ties.  Step 2: every other model's p-value
comes from the supplied two-sample test of its collection against the
best's, with the given continuity and alternative settings; the best
model's own entry is maximal significance (1).  Step 3: the non-separable
set collects every index whose p-value is at least alpha. -/
def findBestSolution (valCv : List (List ℚ)) (test : StatTest) (alpha : ℚ)
    (useContinuity : Bool) (alternative : String) : Nat × List Nat × List ℚ :=
  let means := valCv.map listMean
  let best := argmaxFirst means
  let bestCol := valCv.getD best []
  let pvalues := (List.range valCv.length).map
      (fun i => if i = best then 1 else test.run useContinuity alternative (valCv.getD i []) bestCol)
  let bestSolutions := (List.range valCv.length).filter (fun i => alpha ≤ pvalues.getD i 0)
  (best, bestSolutions, pvalues)

/-- One row of the result summary DataFrame, in column order (the db-name
column receives the dataset name and db-did the dataset id, exactly as the
source's row list pairs with its column list). -/
structure ResultRow where
  dbName : String
  dbDid : Int
  model : Option Nat
  trainCv : List ℚ
  valCv : List ℚ
  mean : ℚ
  ciLBound : ℚ
  ciUBound : ℚ
  separable : Bool
  pvalue : ℚ
  testName : String
  alpha : ℚ
  metric : String
  randomData : Bool
  randomModel : Bool
  seed : Int
  nSplits : Nat
deriving DecidableEq, Repr

/-- Embedding of `_compute_result_summary` (lines 360-434): one row per
model in input order; each row joins the model's signature, its score
collections, the mean and t-interval of the validation scores, the
separability flag (false exactly when the index is among best_solutions),
its p-value, and the run metadata. -/
def computeResultSummary (O : Oracle) (models : List Learner)
    (randomData randomModel : Bool) (seed : Int) (nSplits : Nat) (scoring : Scoring)
    (test : StatTest) (alpha cl : ℚ) (datasetId : Int) (datasetName : String)
    (trainCv valCv : List (List ℚ)) (pvalues : List ℚ) (bestSolutions : List Nat) :
    List ResultRow :=
  (List.range models.length).map (fun index =>
    let m := models.getD index ⟨.plain false false false 0 false, none, none⟩
    let vc := valCv.getD index []
    let ci := O.ciMeanT vc cl
    { dbName := datasetName
      dbDid := datasetId
      model := m.signature
      trainCv := trainCv.getD index []
      valCv := vc
      mean := listMean vc
      ciLBound := ci.1
      ciUBound := ci.2
      separable := if index ∈ bestSolutions then false else true
      pvalue := pvalues.getD index 0
      testName := test.name
      alpha := alpha
      metric := scoring.reprName
      randomData := randomData
      randomModel := randomModel
      seed := seed
      nSplits := nSplits })

/-- Python truthiness of the dataset_id argument: None and 0 are falsy. -/
def pyFalsyId : Option Int → Bool
  | none => true
  | some v => v == 0

/-- Python truthiness of the dataset_name argument: None and "" are falsy. -/
def pyFalsyName : Option String → Bool
  | none => true
  | some s => s == ""

/-- Embedding of compare_models' preamble (lines 500-506): a falsy
dataset_id is rebound to 1, db_name is overridden to "new-db" and that
database is dropped; a falsy dataset_name is rebound to "dataset".  Returns
the effective dataset id, db name, dataset name, the store after the
optional drop, and the emitted events. -/
def compareModelsSetup (datasetId : Option Int) (dbName : String)
    (datasetName : Option String) (store : Store) :
    Int × String × String × Store × List Event :=
  let a :=
    if pyFalsyId datasetId then
      ((1 : Int), "new-db", dropDb store "new-db", [Event.dropEvt "new-db"])
    else (datasetId.getD 1, dbName, store, ([] : List Event))
  let dsName := if pyFalsyName datasetName then "dataset" else datasetName.getD "dataset"
  (a.1, a.2.1, dsName, a.2.2.1, a.2.2.2)

/-- Accumulated state of compare_models' per-model loop. -/
structure CMState where
  store : Store
  trainCvs : List (List ℚ)
  valCvs : List (List ℚ)
  modelsAfter : List Learner
  trace : List Event
  err : Option PyErr

/-- One iteration of compare_models' loop (lines 512-523): run
cross_validation for the model, assign the last fitted model's signature
onto the caller's model object (an IndexError when there are no folds), and
collect the score collections.  A pending exception skips the body. -/
def cmStep (O : Oracle) (xTrain yTrain xVal yVal : PyData)
    (randomData randomModel : Bool) (seed : Int) (nSplits : Nat) (scoring : Scoring)
    (dbName : String) (datasetId : Int) (datasetName : String)
    (st : CMState) (mp : Learner × List (String × Int)) : CMState :=
  if st.err.isSome then st
  else
    let run := crossValidation O mp.1 xTrain yTrain dbName datasetId datasetName
        xVal yVal randomData randomModel seed nSplits scoring mp.2 st.store
    match run.result with
    | .error e =>
        { st with err := some e, store := run.db, trace := st.trace ++ run.trace.map Prod.snd }
    | .ok sf =>
        match sf.2.getLast? with
        | none =>
            { st with
              err := some PyErr.indexError
              store := run.db
              trace := st.trace ++ run.trace.map Prod.snd }
        | some lastL =>
            { store := run.db
              trainCvs := st.trainCvs ++ [sf.1.trainCv]
              valCvs := st.valCvs ++ [sf.1.valCv]
              modelsAfter := st.modelsAfter ++ [{ mp.1 with signature := lastL.signature }]
              trace := st.trace ++ run.trace.map Prod.snd
              err := none }

/-- The accumulated loop state of compare_models after iterating over all
model/fit-params pairs, starting from the store and trace left by the
preamble. -/
def cmLoop (O : Oracle) (models : List Learner) (params : List (List (String × Int)))
    (xTrain yTrain xVal yVal : PyData) (randomData randomModel : Bool)
    (seed : Int) (nSplits : Nat) (scoring : Scoring)
    (dbName : String) (datasetId : Int) (datasetName : String)
    (store0 : Store) (trace0 : List Event) : CMState :=
  (models.zip params).foldl
    (cmStep O xTrain yTrain xVal yVal randomData randomModel seed nSplits scoring
      dbName datasetId datasetName)
    ⟨store0, [], [], [], trace0, none⟩

/-- Value produced by a successful compare_models call. -/
structure CMOut where
  rows : List ResultRow
  modelsAfter : List Learner
  effDatasetId : Int
  effDbName : String
  effDatasetName : String
  bestIdx : Nat
  bestSolutions : List Nat
  pvalues : List ℚ
deriving Repr

/-- Observable outcome of compare_models: the returned summary or the
raised error, the store as left on disk, the event trace, and the caller's
models list after the call (mutations applied up to the point of return or
failure; untouched models keep their original values). -/
structure CMRun where
  result : Except PyErr CMOut
  storeAfter : Store
  trace : List Event
  modelsFinal : List Learner

/-- Embedding of `compare_models` (lines 437-546): preamble, per-model
cross-validation, best-subset selection — the source calls
find_best_solution with test=mannwhitneyu, use_continuity=False,
alternative="two-sided" at lines 526-528 irrespective of the caller's test
argument — and the result summary, which receives the caller's test only
for its name.  The csv write of lines 536-540 is file output outside the
returned value and is not modelled. -/
def compareModels (O : Oracle) (models : List Learner) (params : List (List (String × Int)))
    (xTrain yTrain : PyData) (xVal yVal : PyData) (randomData randomModel : Bool)
    (seed : Int) (nSplits : Nat) (scoring : Scoring) (test : StatTest) (alpha cl : ℚ)
    (dbName : String) (datasetId : Option Int) (datasetName : Option String)
    (store : Store) : CMRun :=
  let su := compareModelsSetup datasetId dbName datasetName store
  let stF := cmLoop O models params xTrain yTrain xVal yVal randomData randomModel
      seed nSplits scoring su.2.1 su.1 su.2.2.1 su.2.2.2.1 su.2.2.2.2
  let modelsFinal := stF.modelsAfter ++ models.drop stF.modelsAfter.length
  match stF.err with
  | some e => ⟨.error e, stF.store, stF.trace, modelsFinal⟩
  | none =>
      let fbs := findBestSolution stF.valCvs O.mannwhitneyu alpha false "two-sided"
      let rows := computeResultSummary O stF.modelsAfter randomData randomModel seed nSplits
          scoring test alpha cl su.1 su.2.2.1 stF.trainCvs stF.valCvs fbs.2.2 fbs.2.1
      ⟨.ok ⟨rows, stF.modelsAfter, su.1, su.2.1, su.2.2.1, fbs.1, fbs.2.1, fbs.2.2⟩,
        stF.store, stF.trace, modelsFinal⟩

/-- A concrete external-collaborator instantiation used for closed runs:
predictions are determined by whether the learner carries a random state,
scores read the prediction payload, and the rank-sum test returns 1 on
identical collections and 1/10 otherwise. -/
def mwu0 : StatTest :=
  ⟨"mannwhitneyu", fun _ _ a b => if a = b then 1 else 1 / 10⟩

def oracle0 : Oracle :=
  { splitPair := fun _ _ _ _ i => (2 * i, 2 * i + 1)
    index := fun x k =>
      match x with
      | .ndarray p => .ndarray (p + k + 1)
      | d => d
    predict := fun l _ => if l.randStates.isEmpty then .ndarray 5 else .ndarray 7
    transform := fun _ x => x
    accuracyScore := fun _ yp =>
      match yp with
      | .ndarray p => (p : ℚ)
      | _ => 0
    f1WeightedScore := fun _ yp =>
      match yp with
      | .ndarray p => (p : ℚ)
      | _ => 0
    mannwhitneyu := mwu0
    ciMeanT := fun l _ => (listMean l - 1, listMean l + 1) }

/-- A caller-supplied statistical test whose p-values are recognisably not
mannwhitneyu's. -/
def testT : StatTest := ⟨"my_test", fun _ _ _ _ => 9 / 10⟩

/-- A caller-supplied scoring callable reading the prediction payload. -/
def scorePayload : Scoring :=
  .callable "payload_score"
    (fun _ yp =>
      match yp with
      | .ndarray p => (p : ℚ)
      | _ => 0)

/-- A plain sklearn-style estimator with fit, predict and random_state. -/
def modelA : Learner := ⟨.plain true true true 0 false, none, none⟩

/-- A plain estimator with fit and predict but no random_state. -/
def modelB : Learner := ⟨.plain true true false 0 false, none, none⟩

/-- A learner's runtime attributes erased down to everything except the
signature attribute, for stating which attributes a call may change. -/
def eraseSig (l : Learner) : Learner := { l with signature := none }

/-- An artifact is behaviourally fitted when refitting it is a no-op under
`_fit`'s guards: every pipeline step passes the fitted probe (non-pipeline
models are guarded by the is_fitted attribute instead). -/
def behaviorallyFitted : Learner → Bool
  | ⟨.pipeline steps, _, _⟩ => steps.all isFittedStep
  | _ => true

def pickRS (st : Step) : Option Int :=
  if st.hasRandomState then some st.randomState else none

theorem filterMap_stepSetSeed (rm : Bool) (i : Nat) (s : Int) (steps : List Step) :
    (steps.map (stepSetSeed rm i s)).filterMap pickRS
      = (steps.filterMap pickRS).map (fun _ => if rm then (i : Int) else s) := by
  induction steps with
  | nil => rfl
  | cons st rest ih =>
      by_cases hrs : st.hasRandomState = true
      · cases rm <;>
          simp only [List.map_cons, List.filterMap_cons, stepSetSeed, hrs, if_true,
            if_false, Bool.false_eq_true, pickRS, ih]
      · simp only [Bool.not_eq_true] at hrs
        simp only [List.map_cons, List.filterMap_cons, stepSetSeed, hrs, pickRS,
          Bool.false_eq_true, if_false, ih]

theorem setSeed_not_randomizable (l : Learner) (rm : Bool) (i : Nat) (s : Int)
    (h : l.randomizable = false) : setRandomSeed l rm i s = l := by
  obtain ⟨k, a, g⟩ := l
  cases k with
  | keras w f => simp [Learner.randomizable] at h
  | pipeline steps =>
      simp only [Learner.randomizable, List.any_eq_false] at h
      simp only [setRandomSeed]
      congr 1
      have hmap : steps.map (stepSetSeed rm i s) = steps.map id := by
        apply List.map_congr_left
        intro st hst
        have hx := h st hst
        simp only [Bool.not_eq_true] at hx
        simp [stepSetSeed, hx]
      simpa using hmap
  | plain hf hp hrs rs f =>
      simp only [Learner.randomizable] at h
      by_cases hfp : (hf && hp) = true
      · rw [Bool.and_eq_true] at hfp
        have hrs0 : hrs = false := by
          cases hrs
          · rfl
          · rw [hfp.1, hfp.2] at h
            simp at h
        simp [setRandomSeed, hfp.1, hfp.2, hrs0]
      · simp only [Bool.not_eq_true] at hfp
        simp [setRandomSeed, hfp]

theorem setSeed_false_uniform (l : Learner) (i j : Nat) (s : Int) :
    setRandomSeed l false i s = setRandomSeed l false j s := by
  obtain ⟨k, a, g⟩ := l
  cases k with
  | keras w f => rfl
  | pipeline steps => rfl
  | plain hf hp hrs rs f => rfl

theorem setSeed_flip_eq_of_seed_eq (l : Learner) (i : Nat) (s : Int) (h : (i : Int) = s) :
    setRandomSeed l true i s = setRandomSeed l false i s := by
  obtain ⟨k, a, g⟩ := l
  cases k with
  | keras w f => simp [setRandomSeed, h]
  | pipeline steps =>
      simp only [setRandomSeed]
      congr 2
      apply List.map_congr_left
      intro st _
      simp [stepSetSeed, h]
  | plain hf hp hrs rs f => simp [setRandomSeed, h]

theorem randStates_setSeed (l : Learner) (rm : Bool) (i : Nat) (s : Int)
    (h : l.randomizable = true) :
    (setRandomSeed l rm i s).randStates
      = l.randStates.map (fun _ => if rm then (i : Int) else s) := by
  obtain ⟨k, a, g⟩ := l
  cases k with
  | keras w f =>
      cases rm <;> simp [setRandomSeed, Learner.randStates]
  | pipeline steps =>
      simp only [setRandomSeed, Learner.randStates]
      exact filterMap_stepSetSeed rm i s steps
  | plain hf hp hrs rs f =>
      simp only [Learner.randomizable, Bool.and_eq_true] at h
      cases rm <;>
        simp [setRandomSeed, Learner.randStates, h.1.1, h.1.2, h.2]

theorem structuralId_setSeed_flip_ne (l : Learner) (i : Nat) (s : Int)
    (hr : l.randomizable = true) (hne : (i : Int) ≠ s) :
    (setRandomSeed l true i s).structuralId ≠ (setRandomSeed l false i s).structuralId := by
  obtain ⟨k, a, g⟩ := l
  cases k with
  | keras w f =>
      intro hEq
      simp [setRandomSeed, Learner.structuralId, LearnerKind.eraseFit,
        Learner.mk.injEq, LearnerKind.keras.injEq] at hEq
      exact hne hEq
  | pipeline steps =>
      intro hEq
      simp only [setRandomSeed, Learner.structuralId, LearnerKind.eraseFit,
        Learner.mk.injEq, LearnerKind.pipeline.injEq, List.map_map] at hEq
      have hpw := List.map_inj_left.mp hEq.1
      simp only [Learner.randomizable, List.any_eq_true] at hr
      obtain ⟨st, hst, hrs⟩ := hr
      have := hpw st hst
      simp only [Function.comp, stepSetSeed, hrs, if_true, Step.eraseFit] at this
      exact hne (congrArg Step.randomState this)
  | plain hf hp hrs rs f =>
      intro hEq
      simp only [Learner.randomizable, Bool.and_eq_true] at hr
      simp [setRandomSeed, hr.1.1, hr.1.2, hr.2,
        Learner.structuralId, LearnerKind.eraseFit, Learner.mk.injEq,
        LearnerKind.plain.injEq] at hEq
      exact hne hEq

/-- Characterisation of when flipping random_model leaves the cache key
unchanged: exactly when the model has no randomization capability or the
fold index coincides with the seed. -/
theorem fingerprint_flip_eq_iff (m : Learner) (i : Nat) (s : Int) (d : Int)
    (n : String) (fp : List (String × Int)) :
    (fitFingerprint m true i s d n fp = fitFingerprint m false i s d n fp)
      ↔ (m.randomizable = false ∨ (i : Int) = s) := by
  constructor
  · intro hEq
    by_cases hr : m.randomizable = true
    · by_cases hs : (i : Int) = s
      · exact Or.inr hs
      · exfalso
        apply structuralId_setSeed_flip_ne m i s hr hs
        have := congrArg CacheKey.modelId hEq
        simpa [fitFingerprint] using this
    · simp only [Bool.not_eq_true] at hr
      exact Or.inl hr
  · intro h
    rcases h with h | h
    · simp [fitFingerprint, setSeed_not_randomizable m true i s h,
        setSeed_not_randomizable m false i s h]
    · simp [fitFingerprint, setSeed_flip_eq_of_seed_eq m i s h]

theorem cvFoldStep_of_err (O : Oracle) (ctx : CVCtx) (st : CVState) (i : Nat)
    (h : st.err.isSome) : cvFoldStep O ctx st i = st := by
  simp [cvFoldStep, h]

theorem foldStates_succ (O : Oracle) (ctx : CVCtx) (db : Store) (k : Nat) :
    foldStates O ctx db (k + 1) = cvFoldStep O ctx (foldStates O ctx db k) k := by
  simp [foldStates, List.range_succ]

theorem foldStates_frozen (O : Oracle) (ctx : CVCtx) (db : Store) (j k : Nat)
    (hjk : j ≤ k) (h : (foldStates O ctx db j).err.isSome) :
    foldStates O ctx db k = foldStates O ctx db j := by
  induction k with
  | zero =>
      have : j = 0 := Nat.le_zero.mp hjk
      rw [this]
  | succ k ih =>
      rcases Nat.lt_or_ge j (k + 1) with hlt | hge
      · have hjk2 : j ≤ k := Nat.lt_succ_iff.mp hlt
        have hk := ih hjk2
        rw [foldStates_succ, hk, cvFoldStep_of_err O ctx _ k h]
      · have : j = k + 1 := Nat.le_antisymm hjk hge
        rw [this]

theorem foldStates_err_none_mono (O : Oracle) (ctx : CVCtx) (db : Store) (j k : Nat)
    (hjk : j ≤ k) (h : (foldStates O ctx db k).err = none) :
    (foldStates O ctx db j).err = none := by
  by_cases hj : (foldStates O ctx db j).err.isSome
  · rw [foldStates_frozen O ctx db j k hjk hj] at h
    rw [h] at hj
    simp at hj
  · rw [Option.not_isSome_iff_eq_none] at hj
    exact hj

theorem cvFoldStep_ok (O : Oracle) (ctx : CVCtx) (st : CVState) (i : Nat)
    (hst : st.err = none) (h : (cvFoldStep O ctx st i).err = none) :
    ∃ fo, (cvFoldBody O ctx st.db i).2 = .ok fo ∧
      cvFoldStep O ctx st i =
        ⟨fo.db, st.trainCv ++ [fo.trainScore], st.valCv ++ [fo.valScore],
          st.fitted ++ [fo.savedLearner],
          st.trace ++ (cvFoldBody O ctx st.db i).1.map (fun ev => (i, ev)), none⟩ := by
  have hs : st.err.isSome = false := by simp [hst]
  by_cases hb : ∃ fo, (cvFoldBody O ctx st.db i).2 = .ok fo
  · obtain ⟨fo, hfo⟩ := hb
    refine ⟨fo, hfo, ?_⟩
    simp [cvFoldStep, hs, hfo]
  · exfalso
    rcases hres : (cvFoldBody O ctx st.db i).2 with e | fo
    · simp [cvFoldStep, hs, hres] at h
    · exact hb ⟨fo, hres⟩

theorem foldStates_lengths (O : Oracle) (ctx : CVCtx) (db : Store) (k : Nat)
    (h : (foldStates O ctx db k).err = none) :
    (foldStates O ctx db k).trainCv.length = k ∧
      (foldStates O ctx db k).valCv.length = k ∧
      (foldStates O ctx db k).fitted.length = k := by
  induction k with
  | zero => simp [foldStates, initCVState]
  | succ k ih =>
      have hk : (foldStates O ctx db k).err = none :=
        foldStates_err_none_mono O ctx db k (k + 1) (Nat.le_succ k) h
      have hstep := cvFoldStep_ok O ctx (foldStates O ctx db k) k hk
        (by rw [← foldStates_succ]; exact h)
      obtain ⟨fo, _, heq⟩ := hstep
      obtain ⟨h1, h2, h3⟩ := ih hk
      rw [foldStates_succ, heq]
      simp [h1, h2, h3]

theorem cvFoldStep_extends (O : Oracle) (ctx : CVCtx) (st : CVState) (i : Nat) :
    ∃ t1 t2 t3 t4,
      (cvFoldStep O ctx st i).trainCv = st.trainCv ++ t1 ∧
      (cvFoldStep O ctx st i).valCv = st.valCv ++ t2 ∧
      (cvFoldStep O ctx st i).fitted = st.fitted ++ t3 ∧
      (cvFoldStep O ctx st i).trace = st.trace ++ t4 := by
  by_cases hs : st.err.isSome
  · exact ⟨[], [], [], [], by simp [cvFoldStep_of_err O ctx st i hs]⟩
  · simp only [Bool.not_eq_true] at hs
    rcases hres : (cvFoldBody O ctx st.db i).2 with e | fo
    · exact ⟨[], [], [], (cvFoldBody O ctx st.db i).1.map (fun ev => (i, ev)),
        by simp [cvFoldStep, hs, hres]⟩
    · exact ⟨[fo.trainScore], [fo.valScore], [fo.savedLearner],
        (cvFoldBody O ctx st.db i).1.map (fun ev => (i, ev)),
        by simp [cvFoldStep, hs, hres]⟩

theorem foldStates_extends (O : Oracle) (ctx : CVCtx) (db : Store) (j k : Nat)
    (hjk : j ≤ k) :
    ∃ t1 t2 t3 t4,
      (foldStates O ctx db k).trainCv = (foldStates O ctx db j).trainCv ++ t1 ∧
      (foldStates O ctx db k).valCv = (foldStates O ctx db j).valCv ++ t2 ∧
      (foldStates O ctx db k).fitted = (foldStates O ctx db j).fitted ++ t3 ∧
      (foldStates O ctx db k).trace = (foldStates O ctx db j).trace ++ t4 := by
  induction k with
  | zero =>
      have : j = 0 := Nat.le_zero.mp hjk
      subst this
      exact ⟨[], [], [], [], by simp⟩
  | succ k ih =>
      rcases Nat.lt_or_ge j (k + 1) with hlt | hge
      · have hjk2 : j ≤ k := Nat.lt_succ_iff.mp hlt
        obtain ⟨t1, t2, t3, t4, e1, e2, e3, e4⟩ := ih hjk2
        obtain ⟨u1, u2, u3, u4, f1, f2, f3, f4⟩ :=
          cvFoldStep_extends O ctx (foldStates O ctx db k) k
        rw [foldStates_succ]
        exact ⟨t1 ++ u1, t2 ++ u2, t3 ++ u3, t4 ++ u4,
          by rw [f1, e1, List.append_assoc], by rw [f2, e2, List.append_assoc],
          by rw [f3, e3, List.append_assoc], by rw [f4, e4, List.append_assoc]⟩
      · have : j = k + 1 := Nat.le_antisymm hjk hge
        subst this
        exact ⟨[], [], [], [], by simp⟩

theorem getLearner_attr (model : Learner) (dbName : String) (datasetId : Int)
    (datasetName : String) (randomModel : Bool) (splitIndex : Nat) (seed : Int)
    (fitParams : List (String × Int)) (store : Store) :
    (getLearner model dbName datasetId datasetName randomModel splitIndex seed
        fitParams store).1.isFittedAttr
      = some (getLearner model dbName datasetId datasetName randomModel splitIndex seed
        fitParams store).2.1 := by
  rcases h : loadModel store dbName
      (fitFingerprint model randomModel splitIndex seed datasetId datasetName fitParams) with
    _ | art <;> simp [getLearner, h]

theorem fitL_ok_of_attr (O : Oracle) (l : Learner) (x : PyData)
    (fp : List (String × Int)) (b : Bool) (h : l.isFittedAttr = some b) :
    ∃ l2, (fitL O l x fp).2 = .ok l2 := by
  obtain ⟨k, a, g⟩ := l
  simp only [Learner.isFittedAttr] at h
  subst h
  cases k with
  | keras w f => cases b <;> simp [fitL]
  | pipeline steps => simp [fitL]
  | plain hf hp hrs rs f =>
      by_cases hfp : (hf && hp) = true
      · cases b <;> simp [fitL, hfp]
      · simp only [Bool.not_eq_true] at hfp
        simp [fitL, hfp]

theorem fitSteps_events (O : Oracle) (x : PyData) (k : Nat) (steps : List Step) :
    ∀ e ∈ (fitSteps O x k steps).2.1, ∃ j, e = Event.stepFitEvt j := by
  induction steps generalizing x k with
  | nil => simp [fitSteps]
  | cons st rest ih =>
      intro e he
      simp only [fitSteps] at he
      by_cases hfs : isFittedStep st = true
      · simp only [hfs, Bool.not_true, Bool.false_eq_true, if_false,
          List.nil_append] at he
        exact ih _ _ e he
      · simp only [Bool.not_eq_true] at hfs
        simp only [hfs, Bool.not_false, if_true, List.cons_append,
          List.nil_append, List.mem_cons] at he
        rcases he with he | he
        · exact ⟨k, he⟩
        · exact ih _ _ e he

theorem fitL_events (O : Oracle) (l : Learner) (x : PyData) (fp : List (String × Int)) :
    ∀ e ∈ (fitL O l x fp).1, e.isFit = true := by
  obtain ⟨k, a, g⟩ := l
  cases k with
  | keras w f =>
      rcases a with _ | b
      · simp [fitL]
      · cases b <;> simp [fitL, Event.isFit]
  | pipeline steps =>
      intro e he
      simp only [fitL] at he
      obtain ⟨j, hj⟩ := fitSteps_events O x 0 steps e he
      simp [hj, Event.isFit]
  | plain hf hp hrs rs f =>
      by_cases hfp : (hf && hp) = true
      · rcases a with _ | b
        · simp [fitL, hfp]
        · cases b <;> simp [fitL, hfp, Event.isFit]
      · simp only [Bool.not_eq_true] at hfp
        simp [fitL, hfp]

theorem cvFoldBody_events (O : Oracle) (ctx : CVCtx) (db : Store) (i : Nat) :
    ∀ e ∈ (cvFoldBody O ctx db i).1, e.isDrop = false := by
  intro e he
  simp only [cvFoldBody] at he
  rcases hfit : fitL O (getLearner ctx.model ctx.dbName ctx.datasetId ctx.datasetName
      ctx.randomModel i ctx.seed ctx.fitParams db).1 (foldData O ctx i).1 ctx.fitParams with
    ⟨evs, r⟩
  have hev : ∀ e2 ∈ evs, e2.isFit = true := by
    intro e2 he2
    have := fitL_events O (getLearner ctx.model ctx.dbName ctx.datasetId ctx.datasetName
      ctx.randomModel i ctx.seed ctx.fitParams db).1 (foldData O ctx i).1 ctx.fitParams e2
    rw [hfit] at this
    exact this he2
  rcases r with err | l2
  · simp only [hfit, List.mem_append, List.mem_singleton] at he
    rcases he with he | he
    · simp [he, Event.isDrop]
    · have := hev e he
      cases e <;> simp_all [Event.isFit, Event.isDrop]
  · rcases hsf : ctx.scoreFun with _ | f
    · simp only [hfit, hsf, List.mem_append, List.mem_singleton] at he
      rcases he with he | he
      · simp [he, Event.isDrop]
      · have := hev e he
        cases e <;> simp_all [Event.isFit, Event.isDrop]
    · simp only [hfit, hsf, List.mem_append, List.mem_singleton] at he
      rcases he with (he | he) | he
      · simp [he, Event.isDrop]
      · have := hev e he
        cases e <;> simp_all [Event.isFit, Event.isDrop]
      · simp [he, Event.isDrop]

theorem cvFoldBody_scoreFun_none (O : Oracle) (ctx : CVCtx) (db : Store) (i : Nat)
    (h : ctx.scoreFun = none) :
    (cvFoldBody O ctx db i).2 = .error (.unboundLocal "score_fun") ∧
      (cvFoldBody O ctx db i).1.head? =
        some (Event.lookupEvt ctx.dbName
          (getLearner ctx.model ctx.dbName ctx.datasetId ctx.datasetName
            ctx.randomModel i ctx.seed ctx.fitParams db).2.2
          (getLearner ctx.model ctx.dbName ctx.datasetId ctx.datasetName
            ctx.randomModel i ctx.seed ctx.fitParams db).2.1) ∧
      ∀ e ∈ (cvFoldBody O ctx db i).1, e.isStore = false := by
  have hattr := getLearner_attr ctx.model ctx.dbName ctx.datasetId ctx.datasetName
    ctx.randomModel i ctx.seed ctx.fitParams db
  obtain ⟨l2, hl2⟩ := fitL_ok_of_attr O _ (foldData O ctx i).1 ctx.fitParams _ hattr
  have hfitev := fitL_events O (getLearner ctx.model ctx.dbName ctx.datasetId
    ctx.datasetName ctx.randomModel i ctx.seed ctx.fitParams db).1
    (foldData O ctx i).1 ctx.fitParams
  rcases hfit : fitL O (getLearner ctx.model ctx.dbName ctx.datasetId ctx.datasetName
      ctx.randomModel i ctx.seed ctx.fitParams db).1 (foldData O ctx i).1 ctx.fitParams with
    ⟨evs, r⟩
  rw [hfit] at hl2 hfitev
  simp only at hl2
  subst hl2
  refine ⟨?_, ?_, ?_⟩
  · simp [cvFoldBody, hfit, h]
  · simp [cvFoldBody, hfit, h]
  · intro e he
    simp only [cvFoldBody, hfit, h, List.mem_append, List.mem_singleton] at he
    rcases he with he | he
    · simp [he, Event.isStore]
    · have := hfitev e he
      cases e <;> simp_all [Event.isFit, Event.isStore]

theorem foldStates_trace_tags (O : Oracle) (ctx : CVCtx) (db : Store) (k : Nat) :
    ∀ p ∈ (foldStates O ctx db k).trace, p.1 < k ∧ p.2.isDrop = false := by
  induction k with
  | zero =>
      simp [foldStates, initCVState]
  | succ k ih =>
      intro p hp
      rw [foldStates_succ] at hp
      by_cases hs : (foldStates O ctx db k).err.isSome
      · rw [cvFoldStep_of_err O ctx _ k hs] at hp
        have := ih p hp
        exact ⟨Nat.lt_succ_of_lt this.1, this.2⟩
      · simp only [Bool.not_eq_true] at hs
        rcases hres : (cvFoldBody O ctx (foldStates O ctx db k).db k).2 with e | fo <;>
        · simp only [cvFoldStep, hs, hres, Option.isSome_none, Bool.false_eq_true,
            if_false, List.mem_append] at hp
          rcases hp with hp | hp
          · have := ih p hp
            exact ⟨Nat.lt_succ_of_lt this.1, this.2⟩
          · simp only [List.mem_map] at hp
            obtain ⟨ev, hev, hpe⟩ := hp
            have := cvFoldBody_events O ctx (foldStates O ctx db k).db k ev hev
            subst hpe
            exact ⟨Nat.lt_succ_self k, this⟩

theorem foldStates_one (O : Oracle) (ctx : CVCtx) (db : Store) :
    foldStates O ctx db 1 = cvFoldStep O ctx (initCVState db) 0 := by
  simp [foldStates, List.range_succ]

theorem foldStates_scoreFun_none (O : Oracle) (ctx : CVCtx) (db : Store) (k : Nat)
    (h : ctx.scoreFun = none) (hk : 1 ≤ k) :
    (foldStates O ctx db k).err = some (.unboundLocal "score_fun") ∧
      (foldStates O ctx db k).trace
        = (cvFoldBody O ctx db 0).1.map (fun ev => ((0 : Nat), ev)) ∧
      (foldStates O ctx db k).db = db := by
  have hbody := (cvFoldBody_scoreFun_none O ctx db 0 h).1
  have h1 : foldStates O ctx db 1 =
      { db := db, trainCv := [], valCv := [], fitted := [],
        trace := (cvFoldBody O ctx db 0).1.map (fun ev => ((0 : Nat), ev)),
        err := some (.unboundLocal "score_fun") } := by
    rw [foldStates_one]
    simp [cvFoldStep, initCVState, hbody]
  have hfrozen := foldStates_frozen O ctx db 1 k hk (by rw [h1]; rfl)
  rw [hfrozen, h1]
  exact ⟨rfl, rfl, rfl⟩

theorem getElem_append_len {α : Type} (l1 l2 : List α) (a : α) :
    (l1 ++ a :: l2)[l1.length]? = some a := by
  rw [List.getElem?_append_right (Nat.le_refl l1.length)]
  simp

theorem foldStates_entry (O : Oracle) (ctx : CVCtx) (db : Store) (nS : Nat)
    (h : (foldStates O ctx db nS).err = none) (i : Nat) (hi : i < nS) :
    ∃ fo, (cvFoldBody O ctx (foldStates O ctx db i).db i).2 = .ok fo ∧
      (foldStates O ctx db nS).trainCv[i]? = some fo.trainScore ∧
      (foldStates O ctx db nS).valCv[i]? = some fo.valScore ∧
      (foldStates O ctx db nS).fitted[i]? = some fo.savedLearner := by
  have hi1 : i + 1 ≤ nS := hi
  have hnone1 : (foldStates O ctx db (i + 1)).err = none :=
    foldStates_err_none_mono O ctx db (i + 1) nS hi1 h
  have hnone0 : (foldStates O ctx db i).err = none :=
    foldStates_err_none_mono O ctx db i nS (Nat.le_of_lt hi) h
  obtain ⟨fo, hbody, hstep⟩ := cvFoldStep_ok O ctx (foldStates O ctx db i) i hnone0
    (by rw [← foldStates_succ]; exact hnone1)
  obtain ⟨hl1, hl2, hl3⟩ := foldStates_lengths O ctx db i hnone0
  obtain ⟨t1, t2, t3, t4, e1, e2, e3, e4⟩ := foldStates_extends O ctx db (i + 1) nS hi1
  rw [foldStates_succ] at e1 e2 e3
  rw [hstep] at e1 e2 e3
  simp only at e1 e2 e3
  refine ⟨fo, hbody, ?_, ?_, ?_⟩
  · have hg := getElem_append_len (foldStates O ctx db i).trainCv t1 fo.trainScore
    rw [hl1] at hg
    rw [e1, List.append_assoc, List.singleton_append]
    exact hg
  · have hg := getElem_append_len (foldStates O ctx db i).valCv t2 fo.valScore
    rw [hl2] at hg
    rw [e2, List.append_assoc, List.singleton_append]
    exact hg
  · have hg := getElem_append_len (foldStates O ctx db i).fitted t3 fo.savedLearner
    rw [hl3] at hg
    rw [e3, List.append_assoc, List.singleton_append]
    exact hg

theorem fitSteps_all_fitted (O : Oracle) (x : PyData) (k : Nat) (steps : List Step)
    (h : steps.all isFittedStep = true) :
    (fitSteps O x k steps).1 = steps ∧ (fitSteps O x k steps).2.1 = [] := by
  induction steps generalizing x k with
  | nil => simp [fitSteps]
  | cons st rest ih =>
      simp only [List.all_cons, Bool.and_eq_true] at h
      have := ih (if st.hasTransform then O.transform st x else x) (k + 1) h.2
      simp [fitSteps, h.1, this.1, this.2]

theorem fitL_no_fit (O : Oracle) (l : Learner) (x : PyData) (fp : List (String × Int))
    (hattr : l.isFittedAttr = some true) (hbf : behaviorallyFitted l = true) :
    (fitL O l x fp).1 = [] ∧ (fitL O l x fp).2 = .ok l := by
  obtain ⟨k, a, g⟩ := l
  simp only [Learner.isFittedAttr] at hattr
  subst hattr
  cases k with
  | keras w f => simp [fitL]
  | pipeline steps =>
      simp only [behaviorallyFitted] at hbf
      have := fitSteps_all_fitted O x 0 steps hbf
      simp [fitL, this.1, this.2]
  | plain hf hp hrs rs f =>
      by_cases hfp : (hf && hp) = true
      · simp [fitL, hfp]
      · simp only [Bool.not_eq_true] at hfp
        simp [fitL, hfp]

theorem behaviorallyFitted_attr (l : Learner) (b : Bool) :
    behaviorallyFitted { l with isFittedAttr := some b } = behaviorallyFitted l := by
  obtain ⟨k, a, g⟩ := l
  cases k <;> rfl

theorem cvFoldBody_hit_no_fit (O : Oracle) (ctx : CVCtx) (db : Store) (i : Nat)
    (artifact : Learner)
    (hload : loadModel db ctx.dbName
      (fitFingerprint ctx.model ctx.randomModel i ctx.seed ctx.datasetId
        ctx.datasetName ctx.fitParams) = some artifact)
    (hbf : behaviorallyFitted artifact = true) :
    (getLearner ctx.model ctx.dbName ctx.datasetId ctx.datasetName ctx.randomModel i
        ctx.seed ctx.fitParams db).1.isFittedAttr = some true ∧
      (getLearner ctx.model ctx.dbName ctx.datasetId ctx.datasetName ctx.randomModel i
        ctx.seed ctx.fitParams db).2.1 = true ∧
      ∀ e ∈ (cvFoldBody O ctx db i).1, e.isFit = false := by
  have hgl : getLearner ctx.model ctx.dbName ctx.datasetId ctx.datasetName ctx.randomModel i
      ctx.seed ctx.fitParams db =
      ({ artifact with isFittedAttr := some true }, true,
        fitFingerprint ctx.model ctx.randomModel i ctx.seed ctx.datasetId
          ctx.datasetName ctx.fitParams) := by
    simp [getLearner, hload]
  have hbf2 : behaviorallyFitted { artifact with isFittedAttr := some true } = true := by
    rw [behaviorallyFitted_attr]
    exact hbf
  have hnf := fitL_no_fit O { artifact with isFittedAttr := some true } (foldData O ctx i).1
    ctx.fitParams rfl hbf2
  refine ⟨by rw [hgl], by rw [hgl], ?_⟩
  intro e he
  simp only [cvFoldBody, hgl] at he
  rcases hfit : fitL O { artifact with isFittedAttr := some true } (foldData O ctx i).1
      ctx.fitParams with ⟨evs, r⟩
  rw [hfit] at hnf
  simp only at hnf
  obtain ⟨hevs, hr⟩ := hnf
  subst hevs
  subst hr
  rw [hfit] at he
  rcases hsf : ctx.scoreFun with _ | f
  · rw [hsf] at he
    simp only [List.append_nil, List.mem_singleton] at he
    simp [he, Event.isFit]
  · rw [hsf] at he
    simp only [List.append_nil, List.mem_append, List.mem_singleton] at he
    rcases he with he | he <;> simp [he, Event.isFit]

theorem crossValidation_trace_no_drop (O : Oracle) (model : Learner) (x y : PyData)
    (dbName : String) (datasetId : Int) (datasetName : String) (xVal yVal : PyData)
    (randomData randomModel : Bool) (seed : Int) (nSplits : Nat) (scoring : Scoring)
    (fitParams : List (String × Int)) (db : Store) :
    ∀ p ∈ (crossValidation O model x y dbName datasetId datasetName xVal yVal
      randomData randomModel seed nSplits scoring fitParams db).trace,
      p.2.isDrop = false := by
  intro p hp
  unfold crossValidation at hp
  split at hp
  · simp at hp
  · split at hp
    · simp at hp
    · split at hp
      · simp at hp
      · split at hp
        · simp at hp
        · rcases hE : (foldStates O (mkCVCtx O model x y dbName datasetId datasetName
              xVal yVal randomData randomModel seed nSplits scoring fitParams) db
              nSplits).err with _ | e <;>
          · simp only [hE] at hp
            exact (foldStates_trace_tags O _ db nSplits p hp).2

theorem cmStep_of_err (O : Oracle) (xTrain yTrain xVal yVal : PyData)
    (randomData randomModel : Bool) (seed : Int) (nSplits : Nat) (scoring : Scoring)
    (dbName : String) (datasetId : Int) (datasetName : String)
    (st : CMState) (mp : Learner × List (String × Int)) (h : st.err.isSome) :
    cmStep O xTrain yTrain xVal yVal randomData randomModel seed nSplits scoring
      dbName datasetId datasetName st mp = st := by
  simp [cmStep, h]

theorem cmFoldl_frozen (O : Oracle) (xTrain yTrain xVal yVal : PyData)
    (randomData randomModel : Bool) (seed : Int) (nSplits : Nat) (scoring : Scoring)
    (dbName : String) (datasetId : Int) (datasetName : String)
    (pairs : List (Learner × List (String × Int))) (st : CMState) (h : st.err.isSome) :
    pairs.foldl (cmStep O xTrain yTrain xVal yVal randomData randomModel seed nSplits
      scoring dbName datasetId datasetName) st = st := by
  induction pairs with
  | nil => rfl
  | cons p rest ih =>
      rw [List.foldl_cons,
        cmStep_of_err O xTrain yTrain xVal yVal randomData randomModel seed nSplits
          scoring dbName datasetId datasetName st p h, ih]

theorem cmStep_cases (O : Oracle) (xTrain yTrain xVal yVal : PyData)
    (randomData randomModel : Bool) (seed : Int) (nSplits : Nat) (scoring : Scoring)
    (dbName : String) (datasetId : Int) (datasetName : String)
    (st : CMState) (mp : Learner × List (String × Int)) :
    ∃ st2, cmStep O xTrain yTrain xVal yVal randomData randomModel seed nSplits scoring
        dbName datasetId datasetName st mp = st2 ∧
      (st2.modelsAfter = st.modelsAfter ∧ st2.err.isSome = true ∨
        st2.modelsAfter.map eraseSig = st.modelsAfter.map eraseSig ++ [eraseSig mp.1]) ∧
      ∃ t, st2.trace = st.trace ++ t ∧ ∀ e ∈ t, e.isDrop = false := by
  by_cases hs : st.err.isSome
  · refine ⟨st, cmStep_of_err O xTrain yTrain xVal yVal randomData randomModel seed nSplits
      scoring dbName datasetId datasetName st mp hs, Or.inl ⟨rfl, hs⟩, [], by simp⟩
  · simp only [Bool.not_eq_true] at hs
    have hnd := crossValidation_trace_no_drop O mp.1 xTrain yTrain dbName datasetId
      datasetName xVal yVal randomData randomModel seed nSplits scoring mp.2 st.store
    have htr : ∀ e2 ∈ (crossValidation O mp.1 xTrain yTrain dbName datasetId datasetName
        xVal yVal randomData randomModel seed nSplits scoring mp.2
        st.store).trace.map Prod.snd, Event.isDrop e2 = false := by
      intro e2 he2
      simp only [List.mem_map] at he2
      obtain ⟨pr, hpr, hpe⟩ := he2
      subst hpe
      exact hnd pr hpr
    rcases hres : (crossValidation O mp.1 xTrain yTrain dbName datasetId datasetName
        xVal yVal randomData randomModel seed nSplits scoring mp.2 st.store).result with
      e | sf
    · refine ⟨_, rfl, Or.inl ⟨?_, ?_⟩, ?_⟩
      · simp [cmStep, hs, hres]
      · simp [cmStep, hs, hres]
      · refine ⟨(crossValidation O mp.1 xTrain yTrain dbName datasetId datasetName
          xVal yVal randomData randomModel seed nSplits scoring mp.2
          st.store).trace.map Prod.snd, ?_, htr⟩
        simp [cmStep, hs, hres]
    · rcases hlast : sf.2.getLast? with _ | lastL
      · refine ⟨_, rfl, Or.inl ⟨?_, ?_⟩, ?_⟩
        · simp [cmStep, hs, hres, hlast]
        · simp [cmStep, hs, hres, hlast]
        · refine ⟨(crossValidation O mp.1 xTrain yTrain dbName datasetId datasetName
            xVal yVal randomData randomModel seed nSplits scoring mp.2
            st.store).trace.map Prod.snd, ?_, htr⟩
          simp [cmStep, hs, hres, hlast]
      · refine ⟨_, rfl, Or.inr ?_, ?_⟩
        · simp [cmStep, hs, hres, hlast, eraseSig]
        · refine ⟨(crossValidation O mp.1 xTrain yTrain dbName datasetId datasetName
            xVal yVal randomData randomModel seed nSplits scoring mp.2
            st.store).trace.map Prod.snd, ?_, htr⟩
          simp [cmStep, hs, hres, hlast]

theorem cmFoldl_models_trace (O : Oracle) (xTrain yTrain xVal yVal : PyData)
    (randomData randomModel : Bool) (seed : Int) (nSplits : Nat) (scoring : Scoring)
    (dbName : String) (datasetId : Int) (datasetName : String)
    (pairs : List (Learner × List (String × Int))) (st : CMState) :
    (∃ n, n ≤ pairs.length ∧
      ((pairs.foldl (cmStep O xTrain yTrain xVal yVal randomData randomModel seed nSplits
          scoring dbName datasetId datasetName) st).modelsAfter).map eraseSig
        = st.modelsAfter.map eraseSig ++ (pairs.map (fun q => eraseSig q.1)).take n) ∧
    (∃ t, (pairs.foldl (cmStep O xTrain yTrain xVal yVal randomData randomModel seed nSplits
        scoring dbName datasetId datasetName) st).trace = st.trace ++ t ∧
      ∀ e ∈ t, e.isDrop = false) := by
  induction pairs generalizing st with
  | nil => exact ⟨⟨0, Nat.zero_le 0, by simp⟩, ⟨[], by simp⟩⟩
  | cons p rest ih =>
      obtain ⟨st2, hst2, hcase, t0, ht0, ht0d⟩ := cmStep_cases O xTrain yTrain xVal yVal
        randomData randomModel seed nSplits scoring dbName datasetId datasetName st p
      rw [List.foldl_cons, hst2]
      rcases hcase with ⟨hsame, herr⟩ | happ
      · have hfrozen := cmFoldl_frozen O xTrain yTrain xVal yVal randomData randomModel
          seed nSplits scoring dbName datasetId datasetName rest st2 herr
        rw [hfrozen]
        constructor
        · exact ⟨0, Nat.zero_le _, by simp [hsame]⟩
        · exact ⟨t0, ht0, ht0d⟩
      · obtain ⟨⟨n, hn, hmod⟩, ⟨t1, ht1, ht1d⟩⟩ := ih st2
        constructor
        · refine ⟨n + 1, by simpa using Nat.succ_le_succ hn, ?_⟩
          rw [hmod, happ]
          simp [List.append_assoc]
        · refine ⟨t0 ++ t1, by rw [ht1, ht0, List.append_assoc], ?_⟩
          intro e he
          rcases List.mem_append.mp he with he | he
          · exact ht0d e he
          · exact ht1d e he

theorem map_fst_zip_take {α β : Type} (l1 : List α) (l2 : List β) :
    (l1.zip l2).map Prod.fst = l1.take l2.length := by
  induction l1 generalizing l2 with
  | nil => simp
  | cons a l1 ih =>
      cases l2 with
      | nil => simp
      | cons b l2 => simp [List.zip_cons_cons, ih]

theorem lookupA_eraseA {α β : Type} [DecidableEq α] (a : α) (l : List (α × β)) :
    lookupA a (eraseA a l) = none := by
  induction l with
  | nil => rfl
  | cons kv rest ih =>
      obtain ⟨k, v⟩ := kv
      by_cases hk : k = a
      · simp [eraseA, hk, ih]
      · simp [eraseA, lookupA, hk, ih]

theorem crossValidation_callerModel (O : Oracle) (model : Learner) (x y : PyData)
    (dbName : String) (datasetId : Int) (datasetName : String) (xVal yVal : PyData)
    (randomData randomModel : Bool) (seed : Int) (nSplits : Nat) (scoring : Scoring)
    (fitParams : List (String × Int)) (db : Store) :
    (crossValidation O model x y dbName datasetId datasetName xVal yVal randomData
      randomModel seed nSplits scoring fitParams db).callerModel = model := by
  unfold crossValidation
  split
  · rfl
  · split
    · rfl
    · split
      · rfl
      · split
        · rfl
        · rcases hE : (foldStates O (mkCVCtx O model x y dbName datasetId datasetName
              xVal yVal randomData randomModel seed nSplits scoring fitParams) db
              nSplits).err with _ | e <;> simp [hE]

theorem compareModels_fields (O : Oracle) (models : List Learner)
    (params : List (List (String × Int))) (xTrain yTrain xVal yVal : PyData)
    (randomData randomModel : Bool) (seed : Int) (nSplits : Nat) (scoring : Scoring)
    (test : StatTest) (alpha cl : ℚ) (dbName : String) (datasetId : Option Int)
    (datasetName : Option String) (store : Store) :
    (compareModels O models params xTrain yTrain xVal yVal randomData randomModel seed
        nSplits scoring test alpha cl dbName datasetId datasetName store).modelsFinal
      = (cmLoop O models params xTrain yTrain xVal yVal randomData randomModel seed
          nSplits scoring (compareModelsSetup datasetId dbName datasetName store).2.1
          (compareModelsSetup datasetId dbName datasetName store).1
          (compareModelsSetup datasetId dbName datasetName store).2.2.1
          (compareModelsSetup datasetId dbName datasetName store).2.2.2.1
          (compareModelsSetup datasetId dbName datasetName store).2.2.2.2).modelsAfter
        ++ models.drop
          (cmLoop O models params xTrain yTrain xVal yVal randomData randomModel seed
            nSplits scoring (compareModelsSetup datasetId dbName datasetName store).2.1
            (compareModelsSetup datasetId dbName datasetName store).1
            (compareModelsSetup datasetId dbName datasetName store).2.2.1
            (compareModelsSetup datasetId dbName datasetName store).2.2.2.1
            (compareModelsSetup datasetId dbName datasetName store).2.2.2.2).modelsAfter.length ∧
    (compareModels O models params xTrain yTrain xVal yVal randomData randomModel seed
        nSplits scoring test alpha cl dbName datasetId datasetName store).trace
      = (cmLoop O models params xTrain yTrain xVal yVal randomData randomModel seed
          nSplits scoring (compareModelsSetup datasetId dbName datasetName store).2.1
          (compareModelsSetup datasetId dbName datasetName store).1
          (compareModelsSetup datasetId dbName datasetName store).2.2.1
          (compareModelsSetup datasetId dbName datasetName store).2.2.2.1
          (compareModelsSetup datasetId dbName datasetName store).2.2.2.2).trace := by
  unfold compareModels
  rcases hE : (cmLoop O models params xTrain yTrain xVal yVal randomData randomModel seed
      nSplits scoring (compareModelsSetup datasetId dbName datasetName store).2.1
      (compareModelsSetup datasetId dbName datasetName store).1
      (compareModelsSetup datasetId dbName datasetName store).2.2.1
      (compareModelsSetup datasetId dbName datasetName store).2.2.2.1
      (compareModelsSetup datasetId dbName datasetName store).2.2.2.2).err with _ | e <;>
    simp [hE]

theorem take_clamp {α : Type} (l : List α) (n : Nat) : l.take n = l.take (min n l.length) := by
  rcases Nat.le_total n l.length with h | h
  · rw [Nat.min_eq_left h]
  · rw [Nat.min_eq_right h, List.take_of_length_le h, List.take_length]

theorem cmLoop_models_trace (O : Oracle) (models : List Learner)
    (params : List (List (String × Int))) (xTrain yTrain xVal yVal : PyData)
    (randomData randomModel : Bool) (seed : Int) (nSplits : Nat) (scoring : Scoring)
    (dbName : String) (datasetId : Int) (datasetName : String)
    (store0 : Store) (trace0 : List Event) :
    (∃ n, n ≤ (models.zip params).length ∧
      ((cmLoop O models params xTrain yTrain xVal yVal randomData randomModel seed
          nSplits scoring dbName datasetId datasetName store0 trace0).modelsAfter).map
        eraseSig = ((models.zip params).map (fun q => eraseSig q.1)).take n) ∧
    (∃ t, (cmLoop O models params xTrain yTrain xVal yVal randomData randomModel seed
        nSplits scoring dbName datasetId datasetName store0 trace0).trace
      = trace0 ++ t ∧ ∀ e ∈ t, e.isDrop = false) := by
  have h := cmFoldl_models_trace O xTrain yTrain xVal yVal randomData randomModel seed
    nSplits scoring dbName datasetId datasetName (models.zip params)
    ⟨store0, [], [], [], trace0, none⟩
  obtain ⟨⟨n, hn, hmod⟩, ⟨t, ht, htd⟩⟩ := h
  exact ⟨⟨n, hn, by simpa [cmLoop] using hmod⟩, ⟨t, by simpa [cmLoop] using ht, htd⟩⟩

/-- C4: `_set_random_seed` with random_model=true sets a
randomization-capable model's random state (for deep models, the
weight-initialisation RNG seed) from the fold index split_index; with
random_model=false it sets it from the seed, identically for every fold;
and models with no randomization capability are returned unchanged. -/
theorem C4_set_random_seed (l : Learner) (rm : Bool) (i j : Nat) (s : Int) :
    (l.randomizable = true →
      (setRandomSeed l true i s).randStates = l.randStates.map (fun _ => (i : Int)) ∧
        (setRandomSeed l false i s).randStates = l.randStates.map (fun _ => s)) ∧
    setRandomSeed l false i s = setRandomSeed l false j s ∧
    (l.randomizable = false → setRandomSeed l rm i s = l) := by
  refine ⟨fun h => ⟨?_, ?_⟩, setSeed_false_uniform l i j s,
    fun h => setSeed_not_randomizable l rm i s h⟩
  · simpa using randStates_setSeed l true i s h
  · simpa using randStates_setSeed l false i s h

theorem C4_set_random_seed_witness :
    (modelA.randomizable = true ∧ modelB.randomizable = false) ∧
    ((setRandomSeed modelA true 3 42).randStates
        = modelA.randStates.map (fun _ => (3 : Int)) ∧
      (setRandomSeed modelA false 3 42).randStates
        = modelA.randStates.map (fun _ => (42 : Int))) ∧
    setRandomSeed modelA false 3 42 = setRandomSeed modelA false 5 42 ∧
    setRandomSeed modelB true 3 42 = modelB :=
  ⟨⟨by decide, by decide⟩,
    (C4_set_random_seed modelA true 3 5 42).1 (by decide),
    (C4_set_random_seed modelA true 3 5 42).2.1,
    (C4_set_random_seed modelB true 3 5 42).2.2 (by decide)⟩

/-- C3 counterexample: with split_index = seed = 7 and a
randomization-capable plain estimator, flipping random_model leaves the
cache key unchanged, and an artifact stored under the random_model=true key
is returned as a hit by a random_model=false lookup. -/
theorem C3_counterexample :
    fitFingerprint modelA true 7 7 5 "ds" [] = fitFingerprint modelA false 7 7 5 "ds" [] ∧
    modelA.randomizable = true ∧
    (getLearner modelA "db" 5 "ds" false 7 7 []
        (saveModel [] "db" (fitFingerprint modelA true 7 7 5 "ds" [])
          ⟨.plain true true true 7 true, some false, none⟩).1).2.1 = true ∧
    (getLearner modelA "db" 5 "ds" false 7 7 []
        (saveModel [] "db" (fitFingerprint modelA true 7 7 5 "ds" [])
          ⟨.plain true true true 7 true, some false, none⟩).1).1.isFittedAttr
      = some true := by decide

/-- C3 amended: flipping random_model (all other fields fixed) changes the
cache key iff the model is randomization-capable and the fold index differs
from the seed; when the model lacks randomization capability or
split_index = seed, the two modes share one key. -/
theorem C3_flip_key (m : Learner) (i : Nat) (s : Int) (d : Int) (n : String)
    (fp : List (String × Int)) :
    fitFingerprint m true i s d n fp = fitFingerprint m false i s d n fp
      ↔ (m.randomizable = false ∨ (i : Int) = s) :=
  fingerprint_flip_eq_iff m i s d n fp

/-- C6: calling cross_validation with random_data=false and a missing
validation set, or with random_model=true, random_data=false and
non-ndarray validation data, raises AssertionError before any fitting or
cache access (empty event trace) and leaves the store untouched, producing
no fold results. -/
theorem C6_precondition_asserts (O : Oracle) (model : Learner) (x y : PyData)
    (dbName : String) (datasetId : Int) (datasetName : String) (xVal yVal : PyData)
    (randomData randomModel : Bool) (seed : Int) (nSplits : Nat) (scoring : Scoring)
    (fitParams : List (String × Int)) (db : Store)
    (h : (randomData = false ∧ (xVal.isNone = true ∨ yVal.isNone = true)) ∨
      (randomModel = true ∧ randomData = false ∧
        ¬(xVal.isNdarray = true ∧ yVal.isNdarray = true))) :
    (crossValidation O model x y dbName datasetId datasetName xVal yVal randomData
        randomModel seed nSplits scoring fitParams db).result
      = .error .assertionError ∧
    (crossValidation O model x y dbName datasetId datasetName xVal yVal randomData
      randomModel seed nSplits scoring fitParams db).trace = [] ∧
    (crossValidation O model x y dbName datasetId datasetName xVal yVal randomData
      randomModel seed nSplits scoring fitParams db).db = db := by
  unfold crossValidation
  split
  · exact ⟨rfl, rfl, rfl⟩
  · split
    · exact ⟨rfl, rfl, rfl⟩
    · split
      · exact ⟨rfl, rfl, rfl⟩
      · rename_i h1 h2 h3
        exfalso
        rcases h with ⟨hrd, hv⟩ | ⟨hrm, hrd, hv⟩
        · rcases hv with hv | hv <;>
          · apply h2
            simp [hrd, hv]
        · apply h3
          simp only [hrm, hrd, Bool.not_false, Bool.true_and]
          cases hxv : xVal.isNdarray <;> cases hyv : yVal.isNdarray <;>
            simp_all

theorem C6_precondition_asserts_witness :
    (false = false ∧ (PyData.isNone .pynone = true ∨ PyData.isNone .pynone = true)) ∧
    ((crossValidation oracle0 modelA (.ndarray 0) (.ndarray 1) "db" 5 "ds" .pynone
        .pynone false false 42 2 scorePayload [] []).result
      = .error .assertionError ∧
    (crossValidation oracle0 modelA (.ndarray 0) (.ndarray 1) "db" 5 "ds" .pynone
      .pynone false false 42 2 scorePayload [] []).trace = [] ∧
    (crossValidation oracle0 modelA (.ndarray 0) (.ndarray 1) "db" 5 "ds" .pynone
      .pynone false false 42 2 scorePayload [] []).db = []) :=
  ⟨⟨rfl, Or.inl rfl⟩,
    C6_precondition_asserts oracle0 modelA (.ndarray 0) (.ndarray 1) "db" 5 "ds"
      .pynone .pynone false false 42 2 scorePayload [] [] (Or.inl ⟨rfl, Or.inl rfl⟩)⟩

/-- C5: when the fold's cache lookup hits a stored (fitted) artifact, the
learner handed on is marked fitted (is_fitted = True) and the fold body
performs no fit call on it — neither a whole-model fit nor any pipeline
step fit — so it is only scored; conversely, under the cache contract that
stored artifacts are fitted, a fit event can only occur on a miss. -/
theorem C5_cache_hit_no_refit (O : Oracle) (ctx : CVCtx) (db : Store) (i : Nat)
    (artifact : Learner)
    (hload : loadModel db ctx.dbName
      (fitFingerprint ctx.model ctx.randomModel i ctx.seed ctx.datasetId
        ctx.datasetName ctx.fitParams) = some artifact)
    (hbf : behaviorallyFitted artifact = true) :
    (getLearner ctx.model ctx.dbName ctx.datasetId ctx.datasetName ctx.randomModel i
        ctx.seed ctx.fitParams db).1.isFittedAttr = some true ∧
    (getLearner ctx.model ctx.dbName ctx.datasetId ctx.datasetName ctx.randomModel i
      ctx.seed ctx.fitParams db).2.1 = true ∧
    ∀ e ∈ (cvFoldBody O ctx db i).1, e.isFit = false :=
  cvFoldBody_hit_no_fit O ctx db i artifact hload hbf

theorem C5_cache_hit_no_refit_witness :
    loadModel
        [("db", [(fitFingerprint modelA false 0 42 5 "ds" [],
          (⟨.plain true true true 42 true, some false, some 0⟩ : Learner))])] "db"
        (fitFingerprint
          (mkCVCtx oracle0 modelA (.ndarray 0) (.ndarray 1) "db" 5 "ds" (.ndarray 2)
            (.ndarray 3) false false 42 2 scorePayload []).model
          (mkCVCtx oracle0 modelA (.ndarray 0) (.ndarray 1) "db" 5 "ds" (.ndarray 2)
            (.ndarray 3) false false 42 2 scorePayload []).randomModel 0
          (mkCVCtx oracle0 modelA (.ndarray 0) (.ndarray 1) "db" 5 "ds" (.ndarray 2)
            (.ndarray 3) false false 42 2 scorePayload []).seed
          (mkCVCtx oracle0 modelA (.ndarray 0) (.ndarray 1) "db" 5 "ds" (.ndarray 2)
            (.ndarray 3) false false 42 2 scorePayload []).datasetId
          (mkCVCtx oracle0 modelA (.ndarray 0) (.ndarray 1) "db" 5 "ds" (.ndarray 2)
            (.ndarray 3) false false 42 2 scorePayload []).datasetName
          (mkCVCtx oracle0 modelA (.ndarray 0) (.ndarray 1) "db" 5 "ds" (.ndarray 2)
            (.ndarray 3) false false 42 2 scorePayload []).fitParams)
      = some (⟨.plain true true true 42 true, some false, some 0⟩ : Learner) ∧
    behaviorallyFitted (⟨.plain true true true 42 true, some false, some 0⟩ : Learner)
      = true ∧
    ((getLearner
        (mkCVCtx oracle0 modelA (.ndarray 0) (.ndarray 1) "db" 5 "ds" (.ndarray 2)
          (.ndarray 3) false false 42 2 scorePayload []).model "db" 5 "ds" false 0 42 []
        [("db", [(fitFingerprint modelA false 0 42 5 "ds" [],
          (⟨.plain true true true 42 true, some false, some 0⟩ : Learner))])]).1.isFittedAttr
      = some true ∧
    (getLearner
        (mkCVCtx oracle0 modelA (.ndarray 0) (.ndarray 1) "db" 5 "ds" (.ndarray 2)
          (.ndarray 3) false false 42 2 scorePayload []).model "db" 5 "ds" false 0 42 []
        [("db", [(fitFingerprint modelA false 0 42 5 "ds" [],
          (⟨.plain true true true 42 true, some false, some 0⟩ : Learner))])]).2.1 = true ∧
    ∀ e ∈ (cvFoldBody oracle0
        (mkCVCtx oracle0 modelA (.ndarray 0) (.ndarray 1) "db" 5 "ds" (.ndarray 2)
          (.ndarray 3) false false 42 2 scorePayload [])
        [("db", [(fitFingerprint modelA false 0 42 5 "ds" [],
          (⟨.plain true true true 42 true, some false, some 0⟩ : Learner))])] 0).1,
      e.isFit = false) :=
  ⟨by decide, by decide,
    C5_cache_hit_no_refit oracle0
      (mkCVCtx oracle0 modelA (.ndarray 0) (.ndarray 1) "db" 5 "ds" (.ndarray 2)
        (.ndarray 3) false false 42 2 scorePayload [])
      [("db", [(fitFingerprint modelA false 0 42 5 "ds" [],
        (⟨.plain true true true 42 true, some false, some 0⟩ : Learner))])] 0
      (⟨.plain true true true 42 true, some false, some 0⟩ : Learner)
      (by decide) (by decide)⟩

/-- C9: whenever compare_models receives dataset_id None or 0, it rebinds
the dataset id to 1, overrides the caller's db_name with "new-db", and
drops the "new-db" database before any cross-validation runs: the store
handed to the loop has no "new-db" database left, and the event trace
starts with the drop, followed only by non-drop events. -/
theorem C9_dataset_id_falsy (O : Oracle) (models : List Learner)
    (params : List (List (String × Int))) (xTrain yTrain xVal yVal : PyData)
    (randomData randomModel : Bool) (seed : Int) (nSplits : Nat) (scoring : Scoring)
    (test : StatTest) (alpha cl : ℚ) (dbName : String) (datasetId : Option Int)
    (datasetName : Option String) (store : Store)
    (h : datasetId = none ∨ datasetId = some 0) :
    (compareModelsSetup datasetId dbName datasetName store).1 = 1 ∧
    (compareModelsSetup datasetId dbName datasetName store).2.1 = "new-db" ∧
    lookupA "new-db" (compareModelsSetup datasetId dbName datasetName store).2.2.2.1
      = none ∧
    ∃ t, (compareModels O models params xTrain yTrain xVal yVal randomData randomModel
        seed nSplits scoring test alpha cl dbName datasetId datasetName store).trace
      = Event.dropEvt "new-db" :: t ∧ ∀ e ∈ t, e.isDrop = false := by
  have hfal : pyFalsyId datasetId = true := by
    rcases h with h | h <;> simp [pyFalsyId, h]
  refine ⟨by simp [compareModelsSetup, hfal], by simp [compareModelsSetup, hfal], ?_, ?_⟩
  · have : (compareModelsSetup datasetId dbName datasetName store).2.2.2.1
        = dropDb store "new-db" := by
      simp [compareModelsSetup, hfal]
    rw [this, dropDb]
    exact lookupA_eraseA "new-db" store
  · obtain ⟨-, htr⟩ := compareModels_fields O models params xTrain yTrain xVal yVal
      randomData randomModel seed nSplits scoring test alpha cl dbName datasetId
      datasetName store
    obtain ⟨-, t, ht, htd⟩ := cmLoop_models_trace O models params xTrain yTrain xVal
      yVal randomData randomModel seed nSplits scoring
      (compareModelsSetup datasetId dbName datasetName store).2.1
      (compareModelsSetup datasetId dbName datasetName store).1
      (compareModelsSetup datasetId dbName datasetName store).2.2.1
      (compareModelsSetup datasetId dbName datasetName store).2.2.2.1
      (compareModelsSetup datasetId dbName datasetName store).2.2.2.2
    rw [htr, ht]
    have hev : (compareModelsSetup datasetId dbName datasetName store).2.2.2.2
        = [Event.dropEvt "new-db"] := by
      simp [compareModelsSetup, hfal]
    rw [hev]
    exact ⟨t, rfl, htd⟩

theorem C9_dataset_id_falsy_witness :
    ((none : Option Int) = none ∨ (none : Option Int) = some 0) ∧
    ((compareModelsSetup none "olddb" none
        [("new-db", [(fitFingerprint modelA false 0 42 1 "dataset" [], modelA)])]).1
      = 1 ∧
    (compareModelsSetup none "olddb" none
        [("new-db", [(fitFingerprint modelA false 0 42 1 "dataset" [], modelA)])]).2.1
      = "new-db" ∧
    lookupA "new-db" (compareModelsSetup none "olddb" none
        [("new-db", [(fitFingerprint modelA false 0 42 1 "dataset" [], modelA)])]).2.2.2.1
      = none ∧
    ∃ t, (compareModels oracle0 [modelA] [[]] (.ndarray 0) (.ndarray 1) (.ndarray 2)
        (.ndarray 3) false false 42 2 scorePayload testT (1 / 20) (1 / 20) "olddb" none
        none [("new-db", [(fitFingerprint modelA false 0 42 1 "dataset" [], modelA)])]).trace
      = Event.dropEvt "new-db" :: t ∧ ∀ e ∈ t, e.isDrop = false) :=
  ⟨Or.inl rfl,
    C9_dataset_id_falsy oracle0 [modelA] [[]] (.ndarray 0) (.ndarray 1) (.ndarray 2)
      (.ndarray 3) false false 42 2 scorePayload testT (1 / 20) (1 / 20) "olddb" none
      none [("new-db", [(fitFingerprint modelA false 0 42 1 "dataset" [], modelA)])]
      (Or.inl rfl)⟩

/-- C2 counterexample: compare_models mutates the caller's model object —
line 520 assigns model.signature — so after one concrete call the caller's
model list is no longer equal to its value before the call (modelA started
with no signature attribute; afterwards it carries signature 1). -/
theorem C2_counterexample :
    (compareModels oracle0 [modelA] [[]] (.ndarray 0) (.ndarray 1) (.ndarray 2)
        (.ndarray 3) false false 42 2 scorePayload testT (1 / 20) (1 / 20) "db"
        (some 5) (some "ds") []).modelsFinal
      = [⟨.plain true true true 0 false, none, some 1⟩] ∧
    modelA.signature = none ∧
    (compareModels oracle0 [modelA] [[]] (.ndarray 0) (.ndarray 1) (.ndarray 2)
        (.ndarray 3) false false 42 2 scorePayload testT (1 / 20) (1 / 20) "db"
        (some 5) (some "ds") []).modelsFinal ≠ [modelA] := by decide

/-- C2 amended: cross_validation never mutates the caller's model (it works
on deep copies); compare_models leaves every attribute of every caller
model unchanged except the signature attribute, which it reassigns for each
processed model. -/
theorem C2_mutation_scope (O : Oracle) (model : Learner) (x y : PyData)
    (dbName : String) (datasetId : Int) (datasetName : String) (xVal yVal : PyData)
    (randomData randomModel : Bool) (seed : Int) (nSplits : Nat) (scoring : Scoring)
    (fitParams : List (String × Int)) (db : Store)
    (models : List Learner) (params : List (List (String × Int)))
    (xTrain yTrain xVal2 yVal2 : PyData) (rd2 rm2 : Bool) (seed2 : Int) (nSplits2 : Nat)
    (scoring2 : Scoring) (test : StatTest) (alpha cl : ℚ) (dbName2 : String)
    (dsId : Option Int) (dsName : Option String) (store : Store) :
    (crossValidation O model x y dbName datasetId datasetName xVal yVal randomData
      randomModel seed nSplits scoring fitParams db).callerModel = model ∧
    ((compareModels O models params xTrain yTrain xVal2 yVal2 rd2 rm2 seed2 nSplits2
        scoring2 test alpha cl dbName2 dsId dsName store).modelsFinal).map eraseSig
      = models.map eraseSig := by
  refine ⟨crossValidation_callerModel O model x y dbName datasetId datasetName xVal yVal
    randomData randomModel seed nSplits scoring fitParams db, ?_⟩
  obtain ⟨hfinal, -⟩ := compareModels_fields O models params xTrain yTrain xVal2 yVal2
    rd2 rm2 seed2 nSplits2 scoring2 test alpha cl dbName2 dsId dsName store
  obtain ⟨⟨n, hn, hmod⟩, -⟩ := cmLoop_models_trace O models params xTrain yTrain xVal2
    yVal2 rd2 rm2 seed2 nSplits2 scoring2
    (compareModelsSetup dsId dbName2 dsName store).2.1
    (compareModelsSetup dsId dbName2 dsName store).1
    (compareModelsSetup dsId dbName2 dsName store).2.2.1
    (compareModelsSetup dsId dbName2 dsName store).2.2.2.1
    (compareModelsSetup dsId dbName2 dsName store).2.2.2.2
  rw [hfinal]
  have hzipmap : ((models.zip params).map (fun q => eraseSig q.1))
      = (models.map eraseSig).take params.length := by
    have h1 : ((models.zip params).map
          (fun q : Learner × List (String × Int) => eraseSig q.1))
        = ((models.zip params).map Prod.fst).map eraseSig := by
      rw [List.map_map]
      rfl
    rw [h1, map_fst_zip_take, List.map_take]
  rw [hzipmap, List.take_take] at hmod
  have hlen := congrArg List.length hmod
  simp only [List.length_map, List.length_take] at hlen
  rw [List.map_append, hmod, take_clamp (models.map eraseSig) (min n params.length)]
  simp only [List.length_map]
  rw [← hlen, List.map_drop]
  exact List.take_append_drop _ _

/-- C7: a successful cross_validation run produces exactly n_splits entries
in the train-score collection, the validation-score collection and the
fitted-models list, and the entry at position i is the train score,
validation score and saved learner computed by fold i's body from the store
state reached after folds 0..i-1 — folds are processed in order. -/
theorem C7_fold_results (O : Oracle) (model : Learner) (x y : PyData)
    (dbName : String) (datasetId : Int) (datasetName : String) (xVal yVal : PyData)
    (randomData randomModel : Bool) (seed : Int) (nSplits : Nat) (scoring : Scoring)
    (fitParams : List (String × Int)) (db : Store) (score : CVScore)
    (fms : List Learner)
    (h : (crossValidation O model x y dbName datasetId datasetName xVal yVal randomData
      randomModel seed nSplits scoring fitParams db).result = .ok (score, fms)) :
    score.trainCv.length = nSplits ∧ score.valCv.length = nSplits ∧
    fms.length = nSplits ∧
    ∀ i, i < nSplits → ∃ fo,
      (cvFoldBody O
        (mkCVCtx O model x y dbName datasetId datasetName xVal yVal randomData
          randomModel seed nSplits scoring fitParams)
        (foldStates O
          (mkCVCtx O model x y dbName datasetId datasetName xVal yVal randomData
            randomModel seed nSplits scoring fitParams) db i).db i).2 = .ok fo ∧
      score.trainCv[i]? = some fo.trainScore ∧
      score.valCv[i]? = some fo.valScore ∧
      fms[i]? = some fo.savedLearner := by
  unfold crossValidation at h
  split at h
  · simp at h
  · split at h
    · simp at h
    · split at h
      · simp at h
      · split at h
        · simp at h
        · rcases hE : (foldStates O
              (mkCVCtx O model x y dbName datasetId datasetName xVal yVal randomData
                randomModel seed nSplits scoring fitParams) db nSplits).err with _ | e
          · simp only [hE, Except.ok.injEq, Prod.mk.injEq] at h
            obtain ⟨hsc, hfm⟩ := h
            obtain ⟨h1, h2, h3⟩ := foldStates_lengths O
              (mkCVCtx O model x y dbName datasetId datasetName xVal yVal randomData
                randomModel seed nSplits scoring fitParams) db nSplits hE
            refine ⟨?_, ?_, ?_, ?_⟩
            · rw [← hsc]
              exact h1
            · rw [← hsc]
              exact h2
            · rw [← hfm]
              exact h3
            · intro i hi
              obtain ⟨fo, hbody, ht, hv, hf⟩ := foldStates_entry O
                (mkCVCtx O model x y dbName datasetId datasetName xVal yVal randomData
                  randomModel seed nSplits scoring fitParams) db nSplits hE i hi
              exact ⟨fo, hbody, by rw [← hsc]; exact ht, by rw [← hsc]; exact hv,
                by rw [← hfm]; exact hf⟩
          · simp [hE] at h

/-- C1 (code_bug evidence): compare_models called with the caller's test
my_test (p-value 9/10 everywhere) still reports the p-values computed by
mannwhitneyu (here 1 for the best model and 1/10 for the other), while
labelling every row with the caller's test name; passing mannwhitneyu
itself yields the same p-values, because lines 526-528 hardcode
test=mannwhitneyu in the find_best_solution call. -/
theorem C1_supplied_test_ignored :
    ((compareModels oracle0 [modelA, modelB] [[], []] (.ndarray 0) (.ndarray 1)
        (.ndarray 2) (.ndarray 3) false false 42 2 scorePayload testT (1 / 20)
        (1 / 20) "db" (some 5) (some "ds") []).result.toOption.map
      (fun o => (o.rows.map ResultRow.pvalue, o.rows.map ResultRow.testName, o.pvalues)))
      = some ([1, 1 / 10], ["my_test", "my_test"], [1, 1 / 10]) ∧
    ((compareModels oracle0 [modelA, modelB] [[], []] (.ndarray 0) (.ndarray 1)
        (.ndarray 2) (.ndarray 3) false false 42 2 scorePayload mwu0 (1 / 20)
        (1 / 20) "db" (some 5) (some "ds") []).result.toOption.map
      (fun o => o.rows.map ResultRow.pvalue)) = some [1, 1 / 10] ∧
    mwu0.run false "two-sided" [5, 5] [7, 7] = 1 / 10 ∧
    testT.run false "two-sided" [5, 5] [7, 7] = 9 / 10 ∧
    ((1 : ℚ) / 10) ≠ 9 / 10 := by
  with_unfolding_all decide

/-- C10: a scoring argument that is a string other than "accuracy" or "f1"
passes argument validation unflagged, and the call fails with
UnboundLocalError for score_fun while computing the first fold's score: the
trace shows fold 0 ran (its cache lookup is the first event), nothing was
stored (the error precedes the fold's save), and no later fold started. -/
theorem C10_scoring_unbound (O : Oracle) (model : Learner) (x y : PyData)
    (dbName : String) (datasetId : Int) (datasetName : String) (xVal yVal : PyData)
    (randomData randomModel : Bool) (seed : Int) (nSplits : Nat)
    (fitParams : List (String × Int)) (db : Store) (s : String)
    (hx : x.isNdarray = true) (hy : y.isNdarray = true)
    (hval : randomData = false → xVal.isNdarray = true ∧ yVal.isNdarray = true)
    (hns1 : 1 ≤ nSplits) (hns2 : randomData = true → 2 ≤ nSplits)
    (hacc : s ≠ "accuracy") (hf1 : s ≠ "f1") :
    (crossValidation O model x y dbName datasetId datasetName xVal yVal randomData
        randomModel seed nSplits (.str s) fitParams db).result
      = .error (.unboundLocal "score_fun") ∧
    (∀ p ∈ (crossValidation O model x y dbName datasetId datasetName xVal yVal
        randomData randomModel seed nSplits (.str s) fitParams db).trace,
      p.1 = 0 ∧ p.2.isStore = false) ∧
    (crossValidation O model x y dbName datasetId datasetName xVal yVal randomData
        randomModel seed nSplits (.str s) fitParams db).trace.head?
      = some (0, Event.lookupEvt dbName
          (getLearner model dbName datasetId datasetName randomModel 0 seed fitParams
            db).2.2
          (getLearner model dbName datasetId datasetName randomModel 0 seed fitParams
            db).2.1) := by
  have hctxsf : (mkCVCtx O model x y dbName datasetId datasetName xVal yVal randomData
      randomModel seed nSplits (.str s) fitParams).scoreFun = none := by
    simp [mkCVCtx, resolveScoreFun, hacc, hf1]
  obtain ⟨herr, htr, -⟩ := foldStates_scoreFun_none O
    (mkCVCtx O model x y dbName datasetId datasetName xVal yVal randomData
      randomModel seed nSplits (.str s) fitParams) db nSplits hctxsf hns1
  obtain ⟨hbe, hbh, hbs⟩ := cvFoldBody_scoreFun_none O
    (mkCVCtx O model x y dbName datasetId datasetName xVal yVal randomData
      randomModel seed nSplits (.str s) fitParams) db 0 hctxsf
  have hc1 : ¬(!(x.isNdarray && y.isNdarray)) = true := by simp [hx, hy]
  have hc2 : ¬(!randomData && (xVal.isNone || yVal.isNone)) = true := by
    cases hrd : randomData
    · obtain ⟨hxv, hyv⟩ := hval hrd
      cases xVal <;> cases yVal <;> simp_all [PyData.isNdarray, PyData.isNone]
    · simp [hrd]
  have hc3 : ¬(randomModel && !randomData && !(xVal.isNdarray && yVal.isNdarray))
      = true := by
    cases hrd : randomData
    · obtain ⟨hxv, hyv⟩ := hval hrd
      simp [hxv, hyv]
    · simp [hrd]
  have hc4 : ¬(randomData && decide (nSplits < 2)) = true := by
    cases hrd : randomData
    · simp [hrd]
    · have := hns2 hrd
      simp [hrd, Nat.not_lt_of_ge this]
  unfold crossValidation
  rw [if_neg hc1, if_neg hc2, if_neg hc3, if_neg hc4]
  simp only [herr]
  refine ⟨trivial, ?_, ?_⟩
  · intro p hp
    simp only [htr, List.mem_map] at hp
    obtain ⟨ev, hev, hpe⟩ := hp
    subst hpe
    exact ⟨rfl, hbs ev hev⟩
  · simp only [htr, List.head?_map, hbh, Option.map_some]
    rfl

/-- C8: the result summary built from find_best_solution's outputs has
exactly one row per model in input order; row i carries the model's
signature, its score collections, the mean of its validation scores, its
p-value and the test's name, and its separable flag is true exactly when
p-value i is below alpha (equivalently, when i is outside the
non-separable-from-best group). -/
theorem C8_summary_rows (O : Oracle) (models : List Learner) (rd rm : Bool)
    (seed : Int) (nS : Nat) (scoring : Scoring) (testSel test : StatTest)
    (alpha cl : ℚ) (uc : Bool) (alt : String) (dsId : Int) (dsName : String)
    (trainCvs valCvs : List (List ℚ))
    (hlen : models.length = valCvs.length) :
    (computeResultSummary O models rd rm seed nS scoring test alpha cl dsId dsName
      trainCvs valCvs (findBestSolution valCvs testSel alpha uc alt).2.2
      (findBestSolution valCvs testSel alpha uc alt).2.1).length = models.length ∧
    ∀ i, i < models.length → ∃ row,
      (computeResultSummary O models rd rm seed nS scoring test alpha cl dsId dsName
        trainCvs valCvs (findBestSolution valCvs testSel alpha uc alt).2.2
        (findBestSolution valCvs testSel alpha uc alt).2.1)[i]? = some row ∧
      row.model = (models.getD i ⟨.plain false false false 0 false, none, none⟩).signature ∧
      row.trainCv = trainCvs.getD i [] ∧
      row.valCv = valCvs.getD i [] ∧
      row.mean = listMean (valCvs.getD i []) ∧
      row.pvalue = (findBestSolution valCvs testSel alpha uc alt).2.2.getD i 0 ∧
      row.testName = test.name ∧
      (row.separable = true
        ↔ (findBestSolution valCvs testSel alpha uc alt).2.2.getD i 0 < alpha) := by
  constructor
  · simp [computeResultSummary]
  · intro i hi
    unfold computeResultSummary
    rw [List.getElem?_map, List.getElem?_range hi, Option.map_some']
    refine ⟨_, rfl, rfl, rfl, rfl, rfl, rfl, rfl, ?_⟩
    show (if i ∈ (findBestSolution valCvs testSel alpha uc alt).2.1 then false
      else true) = true ↔ _
    have hmem : i ∈ (findBestSolution valCvs testSel alpha uc alt).2.1
        ↔ alpha ≤ (findBestSolution valCvs testSel alpha uc alt).2.2.getD i 0 := by
      unfold findBestSolution
      simp only [List.mem_filter, List.mem_range, decide_eq_true_eq]
      constructor
      · exact fun h => h.2
      · intro h
        exact ⟨by rw [← hlen]; exact hi, h⟩
    by_cases hin : i ∈ (findBestSolution valCvs testSel alpha uc alt).2.1
    · rw [if_pos hin]
      have hge := hmem.mp hin
      constructor
      · intro h
        simp at h
      · intro h
        exact absurd h (not_lt.mpr hge)
    · rw [if_neg hin]
      have hlt : (findBestSolution valCvs testSel alpha uc alt).2.2.getD i 0 < alpha :=
        lt_of_not_ge (fun h => hin (hmem.mpr h))
      exact ⟨fun _ => hlt, fun _ => rfl⟩

theorem C7_fold_results_witness :
    (crossValidation oracle0 modelA (.ndarray 0) (.ndarray 1) "db" 5 "ds" (.ndarray 2)
        (.ndarray 3) false false 42 2 scorePayload [] []).result
      = .ok (⟨[], [], [7, 7], [7, 7]⟩,
        [⟨.plain true true true 42 true, some false, some 0⟩,
          ⟨.plain true true true 42 true, some false, some 1⟩]) ∧
    ((⟨[], [], [7, 7], [7, 7]⟩ : CVScore).trainCv.length = 2 ∧
      (⟨[], [], [7, 7], [7, 7]⟩ : CVScore).valCv.length = 2 ∧
      ([(⟨.plain true true true 42 true, some false, some 0⟩ : Learner),
        ⟨.plain true true true 42 true, some false, some 1⟩]).length = 2 ∧
      ∀ i, i < 2 → ∃ fo,
        (cvFoldBody oracle0
          (mkCVCtx oracle0 modelA (.ndarray 0) (.ndarray 1) "db" 5 "ds" (.ndarray 2)
            (.ndarray 3) false false 42 2 scorePayload [])
          (foldStates oracle0
            (mkCVCtx oracle0 modelA (.ndarray 0) (.ndarray 1) "db" 5 "ds" (.ndarray 2)
              (.ndarray 3) false false 42 2 scorePayload []) [] i).db i).2 = .ok fo ∧
        (⟨[], [], [7, 7], [7, 7]⟩ : CVScore).trainCv[i]? = some fo.trainScore ∧
        (⟨[], [], [7, 7], [7, 7]⟩ : CVScore).valCv[i]? = some fo.valScore ∧
        ([(⟨.plain true true true 42 true, some false, some 0⟩ : Learner),
          ⟨.plain true true true 42 true, some false, some 1⟩])[i]? = some fo.savedLearner) :=
  ⟨by rfl,
    C7_fold_results oracle0 modelA (.ndarray 0) (.ndarray 1) "db" 5 "ds" (.ndarray 2)
      (.ndarray 3) false false 42 2 scorePayload [] []
      ⟨[], [], [7, 7], [7, 7]⟩
      [⟨.plain true true true 42 true, some false, some 0⟩,
        ⟨.plain true true true 42 true, some false, some 1⟩] (by rfl)⟩

theorem C10_scoring_unbound_witness :
    ((PyData.ndarray 0).isNdarray = true ∧ (PyData.ndarray 1).isNdarray = true ∧
      ("roc_auc" : String) ≠ "accuracy" ∧ ("roc_auc" : String) ≠ "f1" ∧
      (1 : Nat) ≤ 2) ∧
    ((crossValidation oracle0 modelA (.ndarray 0) (.ndarray 1) "db" 5 "ds" (.ndarray 2)
        (.ndarray 3) false false 42 2 (.str "roc_auc") [] []).result
      = .error (.unboundLocal "score_fun") ∧
    (∀ p ∈ (crossValidation oracle0 modelA (.ndarray 0) (.ndarray 1) "db" 5 "ds"
        (.ndarray 2) (.ndarray 3) false false 42 2 (.str "roc_auc") [] []).trace,
      p.1 = 0 ∧ p.2.isStore = false) ∧
    (crossValidation oracle0 modelA (.ndarray 0) (.ndarray 1) "db" 5 "ds" (.ndarray 2)
        (.ndarray 3) false false 42 2 (.str "roc_auc") [] []).trace.head?
      = some (0, Event.lookupEvt "db"
          (getLearner modelA "db" 5 "ds" false 0 42 [] []).2.2
          (getLearner modelA "db" 5 "ds" false 0 42 [] []).2.1)) :=
  ⟨⟨rfl, rfl, by decide, by decide, by decide⟩,
    C10_scoring_unbound oracle0 modelA (.ndarray 0) (.ndarray 1) "db" 5 "ds"
      (.ndarray 2) (.ndarray 3) false false 42 2 [] [] "roc_auc" rfl rfl
      (fun _ => ⟨rfl, rfl⟩) (by decide) (fun h => by decide) (by decide) (by decide)⟩

theorem C8_summary_rows_witness :
    ([modelA, modelB].length = ([[7, 7], [5, 5]] : List (List ℚ)).length) ∧
    ((computeResultSummary oracle0 [modelA, modelB] false false 42 2 scorePayload testT
        (1 / 20) (1 / 20) 5 "ds" [[7, 7], [5, 5]] [[7, 7], [5, 5]]
        (findBestSolution [[7, 7], [5, 5]] mwu0 (1 / 20) false "two-sided").2.2
        (findBestSolution [[7, 7], [5, 5]] mwu0 (1 / 20) false "two-sided").2.1).length
      = [modelA, modelB].length ∧
    ∀ i, i < [modelA, modelB].length → ∃ row,
      (computeResultSummary oracle0 [modelA, modelB] false false 42 2 scorePayload testT
        (1 / 20) (1 / 20) 5 "ds" [[7, 7], [5, 5]] [[7, 7], [5, 5]]
        (findBestSolution [[7, 7], [5, 5]] mwu0 (1 / 20) false "two-sided").2.2
        (findBestSolution [[7, 7], [5, 5]] mwu0 (1 / 20) false "two-sided").2.1)[i]?
        = some row ∧
      row.model = ([modelA, modelB].getD i ⟨.plain false false false 0 false, none,
        none⟩).signature ∧
      row.trainCv = ([[7, 7], [5, 5]] : List (List ℚ)).getD i [] ∧
      row.valCv = ([[7, 7], [5, 5]] : List (List ℚ)).getD i [] ∧
      row.mean = listMean (([[7, 7], [5, 5]] : List (List ℚ)).getD i []) ∧
      row.pvalue = (findBestSolution [[7, 7], [5, 5]] mwu0 (1 / 20) false
        "two-sided").2.2.getD i 0 ∧
      row.testName = testT.name ∧
      (row.separable = true
        ↔ (findBestSolution [[7, 7], [5, 5]] mwu0 (1 / 20) false
            "two-sided").2.2.getD i 0 < 1 / 20)) :=
  ⟨rfl,
    C8_summary_rows oracle0 [modelA, modelB] false false 42 2 scorePayload mwu0 testT
      (1 / 20) (1 / 20) false "two-sided" 5 "ds" [[7, 7], [5, 5]] [[7, 7], [5, 5]] rfl⟩
